import Mathlib

/-!
# KubeVirt / Guacamole operator: reconciliation engine

A shallow embedding of `internal/controller/guacamole_integration_controller.go`.

* Go `map[string]string` values are association lists; a `nil` map is `none`.
* The cluster API (`r.Get`, `r.List`, `r.Update`) and the HTTP transport
  (`client.Do`) are oracles collected in `Env`; every call made through them
  is recorded in a `World`, which is threaded through the stateful functions.
* Library routines that the controller calls but does not define
  (`encoding/json`, `net/url`, `http.NewRequestWithContext`) are fields of `Env`.
* Go `error` values are their message strings; `nil` is `none`.
* Logging calls are not modelled.
-/

namespace Guacamole

/-! ## Constants (source lines 39-50) -/

def VMWatcherFinalizer : String := "vm-watcher.setofangdar.polito.it/finalizer"

def ProcessedAnnotation : String := "vm-watcher.setofangdar.polito.it/processed"

def LastStatusAnnotation : String := "vm-watcher.setofangdar.polito.it/last-status"

/-- Nanoseconds in `time.Second`. -/
def Second : Int := 1000000000

/-- Nanoseconds in `time.Minute`. -/
def Minute : Int := 60 * Second

def DefaultRetryDelay : Int := 2 * Minute

def MaxRetryAttempts : Nat := 3

def VirtualMachineStatusRunning : String := "Running"

def VirtualMachineStatusStopped : String := "Stopped"

/-! ## Go maps -/

/-- The entries of a Go `map[string]string`. -/
abbrev StrMap := List (String × String)

/-- Go `v, ok := m[k]`; reading a nil map finds nothing. -/
def mapLookup (m : Option StrMap) (k : String) : Option String :=
  match m with
  | none => none
  | some l => l.lookup k

/-- Go `m[k]`: the zero value `""` when the key is absent. -/
def mapIndex (m : Option StrMap) (k : String) : String :=
  (mapLookup m k).getD ""

/-- Go `m[k] = v` on a non-nil map. -/
def mapSet (m : StrMap) (k v : String) : StrMap :=
  (k, v) :: m.filter (fun p => p.1 != k)

/-- Go `if m == nil { m = make(map[string]string) }`. -/
def mapOrMake (m : Option StrMap) : StrMap :=
  match m with
  | none => []
  | some l => l

/-! ## Data model -/

/-- The fields of `kubevirtv1.VirtualMachine` that the controller reads or writes. -/
structure VirtualMachine where
  Namespace : String
  Name : String
  Labels : Option StrMap
  Annotations : Option StrMap
  Finalizers : List String
  DeletionTimestamp : Option Nat
  Generation : Int
  PrintableStatus : String
  deriving DecidableEq, Repr

/-- One entry of `vmi.Status.Interfaces`. -/
structure VMIInterface where
  IP : String
  deriving DecidableEq, Repr

/-- The fields of `kubevirtv1.VirtualMachineInstance` that the controller reads. -/
structure VirtualMachineInstance where
  Interfaces : List VMIInterface
  deriving DecidableEq, Repr

/-- The fields of `corev1.Service` that the controller reads. -/
structure Service where
  Name : String
  Namespace : String
  Selector : Option StrMap
  deriving DecidableEq, Repr

structure GuacamoleAuthResponse where
  AuthToken : String
  Username : String
  DataSource : String
  AvailableDataSources : List String
  deriving DecidableEq, Repr

structure GuacamoleConnection where
  ParentIdentifier : String
  Name : String
  Protocol : String
  Parameters : StrMap
  Attributes : StrMap
  deriving DecidableEq, Repr

structure GuacamoleConnectionResponse where
  Identifier : String
  ParentIdentifier : String
  Name : String
  Protocol : String
  Parameters : Option StrMap
  Attributes : Option StrMap
  deriving DecidableEq, Repr

/-- The configuration fields of `VirtualMachineReconciler`. -/
structure VirtualMachineReconciler where
  GuacamoleBaseURL : String
  GuacamoleUsername : String
  GuacamolePassword : String
  deriving DecidableEq, Repr

/-- The value of `ctrl.Result`; `RequeueAfter` is in nanoseconds. -/
structure Result where
  Requeue : Bool
  RequeueAfter : Int
  deriving DecidableEq, Repr

/-- The zero value `ctrl.Result{}`. -/
def Result.done : Result := { Requeue := false, RequeueAfter := 0 }

/-! ## Collaborators -/

/-- Outcome of `r.Get`. -/
inductive GetResult (α : Type) where
  | found (a : α)
  | notFound (msg : String)
  | failed (msg : String)
  deriving DecidableEq, Repr

/-- An outgoing HTTP request. -/
structure HttpRequest where
  method : String
  url : String
  contentType : String
  body : String
  deriving DecidableEq, Repr

/-- Outcome of `client.Do(req)`. -/
inductive HttpResult where
  | failed (msg : String)
  | response (status : Int) (body : String)
  deriving DecidableEq, Repr

/-- Everything the controller has done to the outside so far. -/
structure World where
  httpLog : List HttpRequest
  writes : List VirtualMachine
  deriving DecidableEq, Repr

/-- The collaborators of the controller. The HTTP oracle sees the requests sent
so far and the update oracle the writes made so far, so that an answer may depend
on the history. -/
structure Env where
  getVM : String → String → GetResult VirtualMachine
  getVMI : String → String → GetResult VirtualMachineInstance
  listServices : String → Except String (List Service)
  update : List VirtualMachine → VirtualMachine → Option String
  http : List HttpRequest → HttpRequest → HttpResult
  newRequest : String → String → Option String
  formEncode : List (String × String) → String
  marshal : GuacamoleConnection → Except String String
  decodeAuth : String → Except String GuacamoleAuthResponse
  decodeConn : String → Except String GuacamoleConnectionResponse
  decodeConns : String → Except String (List (String × GuacamoleConnectionResponse))
  readBody : String → String

/-- Performs `client.Do(req)`: the request is logged and the oracle answers. -/
def doHTTP (env : Env) (w : World) (req : HttpRequest) : HttpResult × World :=
  (env.http w.httpLog req, { w with httpLog := w.httpLog ++ [req] })

/-- Performs `r.Update(ctx, vm)`: the write is logged and the oracle answers. -/
def doUpdate (env : Env) (w : World) (vm : VirtualMachine) : Option String × World :=
  (env.update w.writes vm, { w with writes := w.writes ++ [vm] })

/-! ## controller-runtime helpers -/

/-- The function `controllerutil.ContainsFinalizer`. -/
def ContainsFinalizer (vm : VirtualMachine) (finalizer : String) : Bool :=
  vm.Finalizers.any (fun f => f == finalizer)

/-- The function `controllerutil.AddFinalizer`: appends unless already present. -/
def AddFinalizer (vm : VirtualMachine) (finalizer : String) : VirtualMachine :=
  if vm.Finalizers.any (fun f => f == finalizer) then vm
  else { vm with Finalizers := vm.Finalizers ++ [finalizer] }

/-- The function `controllerutil.RemoveFinalizer`: drops every occurrence. -/
def RemoveFinalizer (vm : VirtualMachine) (finalizer : String) : VirtualMachine :=
  { vm with Finalizers := vm.Finalizers.filter (fun f => f != finalizer) }

/-- Go `strings.TrimSuffix`. -/
def trimSuffix (s suffix : String) : String :=
  if suffix.data.isSuffixOf s.data then
    String.mk (s.data.take (s.data.length - suffix.data.length))
  else s

/-- Go `strings.ToLower` restricted to the ASCII letters. A string lower-cases to
`"rdp"` or `"vnc"` under the Unicode mapping exactly when it does under the ASCII
one, since no letter outside ASCII lower-cases to one of `r d p v n c`. -/
def toLower (s : String) : String :=
  String.mk (s.data.map Char.toLower)

/-! ## Hostname resolution (source lines 463-512) -/

/-- The loop over `vmi.Status.Interfaces` (lines 482-486): the first non-empty address. -/
def firstInterfaceIP : List VMIInterface → Option String
  | [] => none
  | iface :: rest => if iface.IP != "" then some iface.IP else firstInterfaceIP rest

/-- The loop over `svc.Spec.Selector` (lines 495-501): `matches` stays true unless
some pair has `vm.Labels[key] != value`. -/
def selectorMatches (labels : Option StrMap) : StrMap → Bool
  | [] => true
  | (key, value) :: rest =>
    if mapIndex labels key != value then false else selectorMatches labels rest

/-- The test applied to one service (lines 493-502): the selector is non-nil and
the selector loop leaves `matches` true. -/
def serviceMatches (vm : VirtualMachine) (svc : Service) : Bool :=
  match svc.Selector with
  | none => false
  | some selector => selectorMatches vm.Labels selector

/-- The loop over `services.Items` (lines 492-507): the DNS name of the first
matching service. -/
def scanServices (vm : VirtualMachine) : List Service → Option String
  | [] => none
  | svc :: rest =>
    if serviceMatches vm svc then
      some (svc.Name ++ "." ++ svc.Namespace ++ ".svc.cluster.local")
    else scanServices vm rest

def getVMHostname (env : Env) (vm : VirtualMachine) : Except String String :=
  match env.getVMI vm.Namespace vm.Name with
  | .failed err => .error ("failed to get VMI: " ++ err)
  | .notFound _ => .ok vm.Name
  | .found vmi =>
    match firstInterfaceIP vmi.Interfaces with
    | some ip => .ok ip
    | none =>
      match env.listServices vm.Namespace with
      | .ok items =>
        match scanServices vm items with
        | some host => .ok host
        | none => .ok vm.Name
      | .error _ => .ok vm.Name

/-! ## Connection builder (source lines 323-461) -/

def ProtocolAnnotation : String := "vm-watcher.setofangdar.polito.it/protocol"

def PortAnnotation : String := "vm-watcher.setofangdar.polito.it/port"

def UsernameAnnotation : String := "vm-watcher.setofangdar.polito.it/username"

def PasswordAnnotation : String := "vm-watcher.setofangdar.polito.it/password"

def DomainAnnotation : String := "vm-watcher.setofangdar.polito.it/domain"

/-- Lines 327-344: the default `"rdp"` unless the annotation lower-cases to
`"rdp"` or `"vnc"`. Reading a nil annotation map finds nothing, which is the
effect of the `vm.Annotations != nil` guard. -/
def resolveProtocol (vm : VirtualMachine) : String :=
  match mapLookup vm.Annotations ProtocolAnnotation with
  | some customProtocol =>
    let normalizedProtocol := toLower customProtocol
    if normalizedProtocol = "rdp" ∨ normalizedProtocol = "vnc" then normalizedProtocol
    else "rdp"
  | none => "rdp"

/-- Lines 329, 345-360: the default `"3389"`, overridden by the annotation, then
the switch on the protocol. -/
def resolvePort (vm : VirtualMachine) (protocol : String) : String :=
  let port :=
    match mapLookup vm.Annotations PortAnnotation with
    | some customPort => customPort
    | none => "3389"
  if protocol = "vnc" then
    if port = "3389" then "5900" else port
  else if protocol = "rdp" then
    if port = "5900" then "3389" else port
  else port

/-- Go `if v, exists := vm.Annotations[key]; exists { parameters[name] = v }`. -/
def setIfAnnotated (vm : VirtualMachine) (key name : String) (parameters : StrMap) : StrMap :=
  match mapLookup vm.Annotations key with
  | some v => mapSet parameters name v
  | none => parameters

def emptyParams : List String :=
  ["recording-path", "recording-name", "recording-exclude-output",
   "recording-exclude-mouse", "recording-include-keys", "create-recording-path",
   "dest-host", "dest-port"]

/-- Lines 429-433: every listed key that is not yet present is set to `""`. -/
def fillEmptyParams (parameters : StrMap) : List String → StrMap
  | [] => parameters
  | param :: rest =>
    if (parameters.lookup param).isSome then fillEmptyParams parameters rest
    else fillEmptyParams (mapSet parameters param "") rest

/-- Lines 377-421: the protocol-specific parameters; `none` is the `default` branch. -/
def protocolParameters (vm : VirtualMachine) (protocol : String) (parameters : StrMap) :
    Option StrMap :=
  if protocol = "vnc" then
    let p := mapSet parameters "color-depth" "24"
    let p := mapSet p "cursor" "remote"
    let p := mapSet p "read-only" "false"
    let p := mapSet p "swap-red-blue" "false"
    let p := mapSet p "disable-copy" "false"
    let p := mapSet p "disable-paste" "false"
    let p := mapSet p "enable-audio" "false"
    some (setIfAnnotated vm PasswordAnnotation "password" p)
  else if protocol = "rdp" then
    let p := mapSet parameters "security" "any"
    let p := mapSet p "ignore-cert" "true"
    let p := mapSet p "disable-auth" "false"
    let p := mapSet p "resize-method" "reconnect"
    let p := mapSet p "console-audio" "false"
    let p := mapSet p "disable-audio" "false"
    let p := mapSet p "enable-wallpaper" "false"
    let p := mapSet p "enable-theming" "false"
    let p := mapSet p "enable-font-smoothing" "false"
    let p := setIfAnnotated vm UsernameAnnotation "username" p
    let p := setIfAnnotated vm PasswordAnnotation "password" p
    some (setIfAnnotated vm DomainAnnotation "domain" p)
  else none

def connectionAttributes : StrMap :=
  [("max-connections", ""), ("max-connections-per-user", ""), ("weight", ""),
   ("failover-only", ""), ("guacd-port", ""), ("guacd-encryption", ""),
   ("guacd-hostname", "")]

def buildGuacamoleConnection (env : Env) (vm : VirtualMachine) :
    Except String GuacamoleConnection :=
  let protocol := resolveProtocol vm
  let port := resolvePort vm protocol
  match getVMHostname env vm with
  | .error err => .error ("failed to get VM hostname: " ++ err)
  | .ok hostname =>
    let connectionName := vm.Namespace ++ "-" ++ vm.Name
    let parameters := mapSet (mapSet [] "hostname" hostname) "port" port
    match protocolParameters vm protocol parameters with
    | none =>
      .error ("unsupported protocol \x27" ++ protocol ++
        "\x27, only \x27rdp\x27 and \x27vnc\x27 are supported")
    | some parameters =>
      .ok { ParentIdentifier := "ROOT"
            Name := connectionName
            Protocol := protocol
            Parameters := fillEmptyParams parameters emptyParams
            Attributes := connectionAttributes }

/-! ## Gateway client (source lines 218-321, 514-637) -/

def authenticateWithGuacamole (env : Env) (r : VirtualMachineReconciler) (w : World) :
    Except String GuacamoleAuthResponse × World :=
  if r.GuacamoleBaseURL = "" then (.error "guacamole base url not configured", w)
  else
    let authURL := trimSuffix r.GuacamoleBaseURL "/" ++ "/api/tokens"
    let data := env.formEncode
      [("username", r.GuacamoleUsername), ("password", r.GuacamolePassword)]
    match env.newRequest "POST" authURL with
    | some err => (.error ("failed to create auth request: " ++ err), w)
    | none =>
      let req : HttpRequest :=
        { method := "POST", url := authURL
          contentType := "application/x-www-form-urlencoded", body := data }
      match doHTTP env w req with
      | (.failed err, w1) => (.error ("failed to authenticate with Guacamole: " ++ err), w1)
      | (.response status body, w1) =>
        if status ≠ 200 then
          (.error ("authentication failed with status " ++ toString status), w1)
        else
          match env.decodeAuth body with
          | .error err => (.error ("failed to decode auth response: " ++ err), w1)
          | .ok authResp => (.ok authResp, w1)

def createGuacamoleConnection (env : Env) (r : VirtualMachineReconciler) (w : World)
    (vm : VirtualMachine) : Except String String × World :=
  match authenticateWithGuacamole env r w with
  | (.error err, w1) => (.error ("failed to authenticate: " ++ err), w1)
  | (.ok authResp, w1) =>
    match buildGuacamoleConnection env vm with
    | .error err => (.error ("failed to build connection config: " ++ err), w1)
    | .ok connection =>
      let createURL := trimSuffix r.GuacamoleBaseURL "/" ++ "/api/session/data/" ++
        authResp.DataSource ++ "/connections?token=" ++ authResp.AuthToken
      match env.marshal connection with
      | .error err => (.error ("failed to marshal connection: " ++ err), w1)
      | .ok body =>
        match env.newRequest "POST" createURL with
        | some err => (.error ("failed to create request: " ++ err), w1)
        | none =>
          let req : HttpRequest :=
            { method := "POST", url := createURL
              contentType := "application/json", body := body }
          match doHTTP env w1 req with
          | (.failed err, w2) => (.error ("failed to create connection: " ++ err), w2)
          | (.response status respBody, w2) =>
            if status < 200 ∨ status ≥ 300 then
              (.error ("connection creation failed with status " ++ toString status), w2)
            else
              match env.decodeConn respBody with
              | .error err =>
                (.error ("failed to decode connection response: " ++ err), w2)
              | .ok connResp => (.ok connResp.Identifier, w2)

def deleteGuacamoleConnection (env : Env) (r : VirtualMachineReconciler) (w : World)
    (connectionID : String) : Option String × World :=
  if connectionID = "" then (none, w)
  else
    match authenticateWithGuacamole env r w with
    | (.error err, w1) => (some ("failed to authenticate: " ++ err), w1)
    | (.ok authResp, w1) =>
      let deleteURL := trimSuffix r.GuacamoleBaseURL "/" ++ "/api/session/data/" ++
        authResp.DataSource ++ "/connections/" ++ connectionID ++ "?token=" ++
        authResp.AuthToken
      match env.newRequest "DELETE" deleteURL with
      | some err => (some ("failed to create delete request: " ++ err), w1)
      | none =>
        let req : HttpRequest :=
          { method := "DELETE", url := deleteURL, contentType := "", body := "" }
        match doHTTP env w1 req with
        | (.failed err, w2) => (some ("failed to delete connection: " ++ err), w2)
        | (.response status respBody, w2) =>
          if status = 200 ∨ status = 204 then (none, w2)
          else if status = 404 then (none, w2)
          else
            let errorBody := env.readBody respBody
            (some ("connection deletion failed with status " ++ toString status ++
              ": " ++ errorBody), w2)

/-- The loop over the listed connections (lines 619-630); the Boolean is `deletedAny`. -/
def deleteMatching (env : Env) (r : VirtualMachineReconciler) (connectionName : String) :
    List (String × GuacamoleConnectionResponse) → World → Bool → Bool × World
  | [], w, deletedAny => (deletedAny, w)
  | (identifier, connection) :: rest, w, deletedAny =>
    if connection.Name = connectionName then
      match deleteGuacamoleConnection env r w identifier with
      | (some _, w1) => deleteMatching env r connectionName rest w1 deletedAny
      | (none, w1) => deleteMatching env r connectionName rest w1 true
    else deleteMatching env r connectionName rest w deletedAny

def deleteGuacamoleConnectionByName (env : Env) (r : VirtualMachineReconciler) (w : World)
    (connectionName : String) : Option String × World :=
  match authenticateWithGuacamole env r w with
  | (.error err, w1) => (some ("failed to authenticate: " ++ err), w1)
  | (.ok authResp, w1) =>
    let connectionsURL := trimSuffix r.GuacamoleBaseURL "/" ++ "/api/session/data/" ++
      authResp.DataSource ++ "/connections?token=" ++ authResp.AuthToken
    match env.newRequest "GET" connectionsURL with
    | some err => (some ("failed to create connections request: " ++ err), w1)
    | none =>
      let req : HttpRequest :=
        { method := "GET", url := connectionsURL, contentType := "", body := "" }
      match doHTTP env w1 req with
      | (.failed err, w2) => (some ("failed to get connections: " ++ err), w2)
      | (.response status respBody, w2) =>
        if status ≠ 200 then
          (some ("failed to get connections with status " ++ toString status), w2)
        else
          match env.decodeConns respBody with
          | .error err => (some ("failed to decode connections response: " ++ err), w2)
          | .ok connections =>
            (none, (deleteMatching env r connectionName connections w2 false).2)

/-! ## Reconciliation engine (source lines 94-216) -/

def handleDeletion (env : Env) (r : VirtualMachineReconciler) (w : World)
    (vm : VirtualMachine) : (Result × Option String) × World :=
  let connectionName := vm.Namespace ++ "-" ++ vm.Name
  let w1 := (deleteGuacamoleConnectionByName env r w connectionName).2
  if ContainsFinalizer vm VMWatcherFinalizer then
    let vm1 := RemoveFinalizer vm VMWatcherFinalizer
    match doUpdate env w1 vm1 with
    | (some err, w2) => ((Result.done, some err), w2)
    | (none, w2) => ((Result.done, none), w2)
  else ((Result.done, none), w1)

def Reconcile (env : Env) (r : VirtualMachineReconciler) (w : World)
    (reqNamespace reqName : String) : (Result × Option String) × World :=
  match env.getVM reqNamespace reqName with
  | .notFound _ => ((Result.done, none), w)
  | .failed err => ((Result.done, some err), w)
  | .found vm =>
    if vm.DeletionTimestamp.isSome then handleDeletion env r w vm
    else if !ContainsFinalizer vm VMWatcherFinalizer then
      let vm1 := AddFinalizer vm VMWatcherFinalizer
      match doUpdate env w vm1 with
      | (some err, w1) => ((Result.done, some err), w1)
      | (none, w1) => (({ Requeue := true, RequeueAfter := 0 }, none), w1)
    else
      let isNewVM := mapIndex vm.Annotations ProcessedAnnotation != "true"
      let currentStatus := vm.PrintableStatus
      let lastStatus := mapIndex vm.Annotations LastStatusAnnotation
      let statusChanged := lastStatus != "" && lastStatus != currentStatus
      if isNewVM then
        if vm.PrintableStatus != VirtualMachineStatusRunning then
          (({ Requeue := false, RequeueAfter := 30 * Second }, none), w)
        else
          match createGuacamoleConnection env r w vm with
          | (.error _, w1) =>
            (({ Requeue := false, RequeueAfter := DefaultRetryDelay }, none), w1)
          | (.ok _, w1) =>
            let annotations := mapOrMake vm.Annotations
            let annotations := mapSet annotations ProcessedAnnotation "true"
            let annotations := mapSet annotations LastStatusAnnotation currentStatus
            let vm1 := { vm with Annotations := some annotations }
            match doUpdate env w1 vm1 with
            | (some err, w2) => ((Result.done, some err), w2)
            | (none, w2) => ((Result.done, none), w2)
      else if statusChanged then
        let annotations := mapOrMake vm.Annotations
        let annotations := mapSet annotations LastStatusAnnotation currentStatus
        let vm1 := { vm with Annotations := some annotations }
        match doUpdate env w vm1 with
        | (some err, w1) => ((Result.done, some err), w1)
        | (none, w1) => ((Result.done, none), w1)
      else ((Result.done, none), w)

/-! ## Scenarios -/

/-- A gateway whose answer is chosen by the request method; every library routine
succeeds and the listing decodes to `conns`. -/
def scenarioEnv (vm : VirtualMachine) (vmi : GetResult VirtualMachineInstance)
    (services : List Service) (conns : List (String × GuacamoleConnectionResponse))
    (onPost onGet onDelete : Int) : Env :=
  { getVM := fun _ _ => .found vm
    getVMI := fun _ _ => vmi
    listServices := fun _ => .ok services
    update := fun _ _ => none
    http := fun _ req =>
      if req.method = "POST" then .response onPost "7"
      else if req.method = "GET" then .response onGet ""
      else .response onDelete "boom"
    newRequest := fun _ _ => none
    formEncode := fun _ => ""
    marshal := fun c => .ok c.Name
    decodeAuth := fun _ =>
      .ok { AuthToken := "t", Username := "admin", DataSource := "postgresql"
            AvailableDataSources := ["postgresql"] }
    decodeConn := fun body =>
      .ok { Identifier := body, ParentIdentifier := "ROOT", Name := "", Protocol := ""
            Parameters := none, Attributes := none }
    decodeConns := fun _ => .ok conns
    readBody := fun s => s }

def scenarioReconciler : VirtualMachineReconciler :=
  { GuacamoleBaseURL := "https://guacamole.example.com/"
    GuacamoleUsername := "admin", GuacamolePassword := "secret" }

def emptyWorld : World := { httpLog := [], writes := [] }

/-- VM `demo` in namespace `team-a`. -/
def demoVM (annotations : Option StrMap) (finalizers : List String)
    (deletion : Option Nat) (phase : String) : VirtualMachine :=
  { Namespace := "team-a", Name := "demo", Labels := some [("app", "demo")]
    Annotations := annotations, Finalizers := finalizers
    DeletionTimestamp := deletion, Generation := 1, PrintableStatus := phase }

def demoVMI : GetResult VirtualMachineInstance :=
  .found { Interfaces := [{ IP := "" }, { IP := "10.0.0.5" }] }

def demoConnection : GuacamoleConnectionResponse :=
  { Identifier := "42", ParentIdentifier := "ROOT", Name := "team-a-demo"
    Protocol := "rdp", Parameters := none, Attributes := none }

/-- Scenario B: the VM is being deleted, the listing holds connection `42` named
`team-a-demo`, and the gateway answers the delete with status 500. -/
def scenarioBVM : VirtualMachine :=
  demoVM none [VMWatcherFinalizer] (some 1) "Running"

def scenarioBEnv : Env :=
  scenarioEnv scenarioBVM demoVMI [] [("42", demoConnection)] 200 200 500

/-- Scenario C: the authentication endpoint answers 401. -/
def scenarioCVM : VirtualMachine :=
  demoVM none [VMWatcherFinalizer] none "Running"

def scenarioCEnv : Env :=
  scenarioEnv scenarioCVM demoVMI [] [] 401 200 200

/-- Scenario A: the VM is running and the gateway accepts the connection. -/
def scenarioAVM : VirtualMachine :=
  demoVM (some [("owner", "alice")]) [VMWatcherFinalizer] none "Running"

def scenarioAEnv : Env :=
  scenarioEnv scenarioAVM demoVMI [] [] 200 200 200

/-- A provisioned VM whose phase equals the stored one. -/
def provisionedVM : VirtualMachine :=
  demoVM (some [( ProcessedAnnotation, "true"), ( LastStatusAnnotation, "Running")])
    [VMWatcherFinalizer] none "Running"

def provisionedEnv : Env :=
  scenarioEnv provisionedVM demoVMI [] [] 200 200 200

/-! ## Port rule, as the specification words it -/

/-- The default port of a protocol: rdp→3389, vnc→5900. -/
def specDefaultPort (protocol : String) : String :=
  if protocol = "vnc" then "5900" else "3389"

/-- The default port of the other protocol. -/
def specOtherDefaultPort (protocol : String) : String :=
  if protocol = "vnc" then "3389" else "5900"

/-- The resolved port is the annotation when present, otherwise the chosen
protocol's default; a resolved port equal to the other protocol's default is replaced
by the chosen protocol's default. -/
def specPort (protocol : String) (annotated : Option String) : String :=
  let resolved := annotated.getD (specDefaultPort protocol)
  if resolved = specOtherDefaultPort protocol then specDefaultPort protocol else resolved

/-- A VM whose protocol annotation is `Vnc`, with no port annotation. -/
def vncVM : VirtualMachine :=
  demoVM (some [( ProtocolAnnotation, "Vnc")]) [VMWatcherFinalizer] none "Running"

def vncEnv : Env :=
  scenarioEnv vncVM demoVMI [] [] 200 200 200

/-- A VM that asks for rdp on port 5900, with labels that differ from `vncVM`. -/
def rdpVM : VirtualMachine :=
  { demoVM (some [( ProtocolAnnotation, "smtp"), ( PortAnnotation, "5900")]) [] none "Stopped"
    with Labels := none }

def rdpEnv : Env :=
  scenarioEnv rdpVM (.notFound "not found") [] [] 200 200 200

/-- The spec that `buildGuacamoleConnection vncEnv vncVM` returns. -/
def vncConnection : GuacamoleConnection :=
  { ParentIdentifier := "ROOT", Name := "team-a-demo", Protocol := "vnc"
    Parameters :=
      [("dest-port", ""), ("dest-host", ""), ("create-recording-path", ""),
       ("recording-include-keys", ""), ("recording-exclude-mouse", ""),
       ("recording-exclude-output", ""), ("recording-name", ""), ("recording-path", ""),
       ("enable-audio", "false"), ("disable-paste", "false"), ("disable-copy", "false"),
       ("swap-red-blue", "false"), ("read-only", "false"), ("cursor", "remote"),
       ("color-depth", "24"), ("port", "5900"), ("hostname", "10.0.0.5")]
    Attributes := connectionAttributes }

/-- The spec that `buildGuacamoleConnection rdpEnv rdpVM` returns. -/
def rdpConnection : GuacamoleConnection :=
  { ParentIdentifier := "ROOT", Name := "team-a-demo", Protocol := "rdp"
    Parameters :=
      [("dest-port", ""), ("dest-host", ""), ("create-recording-path", ""),
       ("recording-include-keys", ""), ("recording-exclude-mouse", ""),
       ("recording-exclude-output", ""), ("recording-name", ""), ("recording-path", ""),
       ("enable-font-smoothing", "false"), ("enable-theming", "false"),
       ("enable-wallpaper", "false"), ("disable-audio", "false"),
       ("console-audio", "false"), ("resize-method", "reconnect"),
       ("disable-auth", "false"), ("ignore-cert", "true"), ("security", "any"),
       ("port", "3389"), ("hostname", "demo")]
    Attributes := connectionAttributes }

/-! ## Hostname scenarios -/

/-- A service whose selector is a sub-map of the labels of `demoVM`. -/
def webService : Service :=
  { Name := "web", Namespace := "team-a", Selector := some [("app", "demo")] }

/-- The running instance is missing while a matching service exists. -/
def missingInstanceEnv : Env :=
  scenarioEnv scenarioCVM (.notFound "not found") [webService] [] 200 200 200

/-- The running instance exists and reports no address; a matching service exists. -/
def noAddressEnv : Env :=
  scenarioEnv scenarioCVM (.found { Interfaces := [{ IP := "" }] }) [webService] [] 200 200 200

/-- A service without a selector. -/
def headlessService : Service :=
  { Name := "external", Namespace := "team-a", Selector := none }

/-- A service whose selector asks for key `tier` with the empty value. -/
def emptyValueService : Service :=
  { Name := "any-tier", Namespace := "team-a", Selector := some [("tier", "")] }

/-- The match of the specification: every key/value pair of the selector is present
in the labels with an equal value. -/
def specSelectorMatches (labels selector : Option StrMap) : Bool :=
  (selector.getD []).all (fun p => mapLookup labels p.1 == some p.2)

/-- The gateway answers a delete with 201 Created. -/
def createdOnDeleteEnv : Env :=
  scenarioEnv scenarioBVM demoVMI [] [("42", demoConnection)] 200 200 201

/-- The gateway answers a delete with 404 Not Found. -/
def notFoundOnDeleteEnv : Env :=
  scenarioEnv scenarioBVM demoVMI [] [("42", demoConnection)] 200 200 404

/-! ## Admission filter (source lines 639-665) -/

/-- The `CreateFunc` of `vmPredicate`. -/
def CreateFunc (_vm : VirtualMachine) : Bool := true

/-- The `UpdateFunc` of `vmPredicate`. -/
def UpdateFunc (oldVM newVM : VirtualMachine) : Bool :=
  mapIndex oldVM.Annotations ProcessedAnnotation
      != mapIndex newVM.Annotations ProcessedAnnotation ||
    oldVM.PrintableStatus != newVM.PrintableStatus ||
    oldVM.Generation != newVM.Generation ||
    (oldVM.DeletionTimestamp.isNone && newVM.DeletionTimestamp.isSome)

/-- The `DeleteFunc` of `vmPredicate`. -/
def DeleteFunc (_vm : VirtualMachine) : Bool := true

/-! ## Delete-by-name, as the specification words it -/

/-- Delete each identifier in turn, whatever the earlier deletes returned. -/
def specDeleteEach (env : Env) (r : VirtualMachineReconciler) (ids : List String)
    (w : World) : World :=
  ids.foldl (fun w1 identifier => (deleteGuacamoleConnection env r w1 identifier).2) w

/-- The identifiers of the listed connections whose name is exactly `connectionName`. -/
def specMatchingIds (connectionName : String)
    (connections : List (String × GuacamoleConnectionResponse)) : List String :=
  (connections.filter (fun p => decide (p.2.Name = connectionName))).map (fun p => p.1)

/-- A connection response with the given identifier and name. -/
def namedConnection (identifier name : String) : GuacamoleConnectionResponse :=
  { Identifier := identifier, ParentIdentifier := "ROOT", Name := name
    Protocol := "rdp", Parameters := none, Attributes := none }

/-- A listing with two connections named `team-a-demo` and two near misses; every
delete is answered with status 500. -/
def crowdedListing : List (String × GuacamoleConnectionResponse) :=
  [("42", namedConnection "42" "team-a-demo"),
   ("43", namedConnection "43" "Team-A-Demo"),
   ("44", namedConnection "44" "team-a-demo-2"),
   ("45", namedConnection "45" "team-a-demo")]

def crowdedEnv : Env :=
  scenarioEnv scenarioBVM demoVMI [] crowdedListing 200 200 500

def scenarioAuth : GuacamoleAuthResponse :=
  { AuthToken := "t", Username := "admin", DataSource := "postgresql"
    AvailableDataSources := ["postgresql"] }

/-! ## Engine scenarios -/

/-- A VM seen for the first time: no finalizer, no annotations. -/
def unseenVM : VirtualMachine :=
  demoVM none [] none "Stopped"

def unseenEnv : Env :=
  scenarioEnv unseenVM demoVMI [] [] 200 200 200

/-- A VM with the finalizer that is not yet running. -/
def startingVM : VirtualMachine :=
  demoVM none [VMWatcherFinalizer] none "Starting"

def startingEnv : Env :=
  scenarioEnv startingVM demoVMI [] [] 200 200 200

/-- A provisioned VM whose stored phase is `Running` and whose phase is `Stopped`. -/
def stoppedVM : VirtualMachine :=
  demoVM (some [( ProcessedAnnotation, "true"), ( LastStatusAnnotation, "Running")])
    [VMWatcherFinalizer] none "Stopped"

def stoppedEnv : Env :=
  scenarioEnv stoppedVM demoVMI [] [] 200 200 200

/-- A provisioned VM for which no last-observed phase is stored. -/
def unrecordedVM : VirtualMachine :=
  demoVM (some [( ProcessedAnnotation, "true")]) [VMWatcherFinalizer] none "Stopped"

def unrecordedEnv : Env :=
  scenarioEnv unrecordedVM demoVMI [] [] 200 200 200

/-- The VM `provisionedVM` after a change of labels and of the last-status annotation. -/
def relabelledVM : VirtualMachine :=
  { demoVM (some [( ProcessedAnnotation, "true"), ( LastStatusAnnotation, "Stopped"),
      ("owner", "bob")]) [VMWatcherFinalizer] none "Running"
    with Labels := some [("app", "other")] }

/-! ## Create scenarios -/

/-- The identifier that the Go function returns: every error return of
`createGuacamoleConnection` is `return "", err`. -/
def returnedIdentifier (res : Except String String) : String :=
  match res with
  | .ok identifier => identifier
  | .error _ => ""

/-- The gateway authenticates and then answers the create with 409 Conflict. -/
def createRejectedEnv : Env :=
  { scenarioAEnv with
    http := fun log _ => if log.length = 0 then .response 200 "" else .response 409 "" }

/-- The gateway accepts everything; the first write-back of the VM fails. -/
def firstWriteFailsEnv : Env :=
  { scenarioAEnv with
    update := fun writes _ => if writes.length = 0 then some "conflict" else none }

/-- The spec that `buildGuacamoleConnection scenarioAEnv scenarioAVM` returns. -/
def scenarioAConnection : GuacamoleConnection :=
  { ParentIdentifier := "ROOT", Name := "team-a-demo", Protocol := "rdp"
    Parameters :=
      [("dest-port", ""), ("dest-host", ""), ("create-recording-path", ""),
       ("recording-include-keys", ""), ("recording-exclude-mouse", ""),
       ("recording-exclude-output", ""), ("recording-name", ""), ("recording-path", ""),
       ("enable-font-smoothing", "false"), ("enable-theming", "false"),
       ("enable-wallpaper", "false"), ("disable-audio", "false"),
       ("console-audio", "false"), ("resize-method", "reconnect"),
       ("disable-auth", "false"), ("ignore-cert", "true"), ("security", "any"),
       ("port", "3389"), ("hostname", "10.0.0.5")]
    Attributes := connectionAttributes }

/-! ## Builder scenarios -/

/-- The lookup of the running instance fails with an error other than not-found. -/
def instanceLookupFailsEnv : Env :=
  scenarioEnv scenarioAVM (.failed "timeout") [] [] 200 200 200

/-- An rdp VM that carries the three credential annotations. -/
def rdpCredentialVM : VirtualMachine :=
  demoVM (some [( UsernameAnnotation, "Alice"), ( PasswordAnnotation, "s3cret "),
    ( DomainAnnotation, "CORP")]) [VMWatcherFinalizer] none "Running"

def rdpCredentialEnv : Env :=
  scenarioEnv rdpCredentialVM demoVMI [] [] 200 200 200

/-- A vnc VM that carries a username, a password and a domain annotation. -/
def vncCredentialVM : VirtualMachine :=
  demoVM (some [( ProtocolAnnotation, "vnc"), ( UsernameAnnotation, "Alice"),
    ( PasswordAnnotation, "s3cret "), ( DomainAnnotation, "CORP")])
    [VMWatcherFinalizer] none "Running"

def vncCredentialEnv : Env :=
  scenarioEnv vncCredentialVM demoVMI [] [] 200 200 200

/-- The spec that `buildGuacamoleConnection rdpCredentialEnv rdpCredentialVM` returns. -/
def rdpCredentialConnection : GuacamoleConnection :=
  { ParentIdentifier := "ROOT", Name := "team-a-demo", Protocol := "rdp"
    Parameters :=
      [("dest-port", ""), ("dest-host", ""), ("create-recording-path", ""),
       ("recording-include-keys", ""), ("recording-exclude-mouse", ""),
       ("recording-exclude-output", ""), ("recording-name", ""), ("recording-path", ""),
       ("domain", "CORP"), ("password", "s3cret "), ("username", "Alice"),
       ("enable-font-smoothing", "false"), ("enable-theming", "false"),
       ("enable-wallpaper", "false"), ("disable-audio", "false"),
       ("console-audio", "false"), ("resize-method", "reconnect"),
       ("disable-auth", "false"), ("ignore-cert", "true"), ("security", "any"),
       ("port", "3389"), ("hostname", "10.0.0.5")]
    Attributes := connectionAttributes }

/-- The spec that `buildGuacamoleConnection vncCredentialEnv vncCredentialVM` returns. -/
def vncCredentialConnection : GuacamoleConnection :=
  { ParentIdentifier := "ROOT", Name := "team-a-demo", Protocol := "vnc"
    Parameters :=
      [("dest-port", ""), ("dest-host", ""), ("create-recording-path", ""),
       ("recording-include-keys", ""), ("recording-exclude-mouse", ""),
       ("recording-exclude-output", ""), ("recording-name", ""), ("recording-path", ""),
       ("password", "s3cret "), ("enable-audio", "false"), ("disable-paste", "false"),
       ("disable-copy", "false"), ("swap-red-blue", "false"), ("read-only", "false"),
       ("cursor", "remote"), ("color-depth", "24"), ("port", "5900"),
       ("hostname", "10.0.0.5")]
    Attributes := connectionAttributes }

/-! ## Deletion scenarios -/

/-- A request that the deletion path may send: a listing, a delete, or the form-encoded
POST of an authentication. A create is a POST with content type `application/json`. -/
def IsCleanupRequest (q : HttpRequest) : Prop :=
  q.method = "GET" ∨ q.method = "DELETE" ∨
    (q.method = "POST" ∧ q.contentType = "application/x-www-form-urlencoded")

/-- A VM that is being deleted and no longer carries the finalizer; it is unprocessed
and Running. -/
def releasedVM : VirtualMachine :=
  demoVM none [] (some 1) "Running"

def releasedEnv : Env :=
  scenarioEnv releasedVM demoVMI [] [("42", demoConnection)] 200 200 200

/-- VM `b-demo` in namespace `team-a`. -/
def firstTwinVM : VirtualMachine :=
  { Namespace := "team-a", Name := "b-demo", Labels := none, Annotations := none
    Finalizers := [VMWatcherFinalizer], DeletionTimestamp := none, Generation := 1
    PrintableStatus := "Running" }

/-- VM `demo` in namespace `team-a-b`, which is being deleted. -/
def secondTwinVM : VirtualMachine :=
  { Namespace := "team-a-b", Name := "demo", Labels := none, Annotations := none
    Finalizers := [VMWatcherFinalizer], DeletionTimestamp := some 1, Generation := 1
    PrintableStatus := "Running" }

/-- The spec that the builder returns for `firstTwinVM` when its instance is missing. -/
def firstTwinConnection : GuacamoleConnection :=
  { ParentIdentifier := "ROOT", Name := "team-a-b-demo", Protocol := "rdp"
    Parameters :=
      [("dest-port", ""), ("dest-host", ""), ("create-recording-path", ""),
       ("recording-include-keys", ""), ("recording-exclude-mouse", ""),
       ("recording-exclude-output", ""), ("recording-name", ""), ("recording-path", ""),
       ("enable-font-smoothing", "false"), ("enable-theming", "false"),
       ("enable-wallpaper", "false"), ("disable-audio", "false"),
       ("console-audio", "false"), ("resize-method", "reconnect"),
       ("disable-auth", "false"), ("ignore-cert", "true"), ("security", "any"),
       ("port", "3389"), ("hostname", "b-demo")]
    Attributes := connectionAttributes }

/-- The spec that the builder returns for `secondTwinVM` when its instance is missing. -/
def secondTwinConnection : GuacamoleConnection :=
  { firstTwinConnection with
    Parameters :=
      [("dest-port", ""), ("dest-host", ""), ("create-recording-path", ""),
       ("recording-include-keys", ""), ("recording-exclude-mouse", ""),
       ("recording-exclude-output", ""), ("recording-name", ""), ("recording-path", ""),
       ("enable-font-smoothing", "false"), ("enable-theming", "false"),
       ("enable-wallpaper", "false"), ("disable-audio", "false"),
       ("console-audio", "false"), ("resize-method", "reconnect"),
       ("disable-auth", "false"), ("ignore-cert", "true"), ("security", "any"),
       ("port", "3389"), ("hostname", "demo")] }

/-- The gateway lists one connection, `7`, the one created for `firstTwinVM`; the
cluster serves `secondTwinVM`. -/
def twinEnv : Env :=
  scenarioEnv secondTwinVM (.notFound "not found") []
    [("7", namedConnection "7" firstTwinConnection.Name)] 200 200 204

/-! # Theorems -/

/-! ## Frame lemmas: the gateway client never writes a VM back -/

theorem authenticate_writes (env : Env) (r : VirtualMachineReconciler) (w : World) :
    (authenticateWithGuacamole env r w).2.writes = w.writes := by
  unfold authenticateWithGuacamole doHTTP
  split
  · rfl
  · dsimp only
    split
    · rfl
    · split
      · rename_i h; rw [Prod.mk.injEq] at h; obtain ⟨-, rfl⟩ := h; rfl
      · rename_i h; rw [Prod.mk.injEq] at h; obtain ⟨-, rfl⟩ := h
        split
        · rfl
        · split <;> rfl

theorem create_writes (env : Env) (r : VirtualMachineReconciler) (w : World)
    (vm : VirtualMachine) :
    (createGuacamoleConnection env r w vm).2.writes = w.writes := by
  have ha := authenticate_writes env r w
  unfold createGuacamoleConnection doHTTP
  split
  · rename_i h; rw [h] at ha; exact ha
  · rename_i h; rw [h] at ha; dsimp only at ha ⊢
    split
    · exact ha
    · split
      · exact ha
      · split
        · exact ha
        · split
          · rename_i h; rw [Prod.mk.injEq] at h; obtain ⟨-, rfl⟩ := h; exact ha
          · rename_i h; rw [Prod.mk.injEq] at h; obtain ⟨-, rfl⟩ := h
            split
            · exact ha
            · split <;> exact ha

theorem delete_writes (env : Env) (r : VirtualMachineReconciler) (w : World)
    (connectionID : String) :
    (deleteGuacamoleConnection env r w connectionID).2.writes = w.writes := by
  have ha := authenticate_writes env r w
  unfold deleteGuacamoleConnection doHTTP
  split
  · rfl
  · split
    · rename_i h; rw [h] at ha; exact ha
    · rename_i h; rw [h] at ha; dsimp only at ha ⊢
      split
      · exact ha
      · split
        · rename_i h; rw [Prod.mk.injEq] at h; obtain ⟨-, rfl⟩ := h; exact ha
        · rename_i h; rw [Prod.mk.injEq] at h; obtain ⟨-, rfl⟩ := h
          split
          · exact ha
          · split <;> exact ha

theorem deleteMatching_writes (env : Env) (r : VirtualMachineReconciler) (name : String)
    (l : List (String × GuacamoleConnectionResponse)) :
    ∀ (w : World) (b : Bool), (deleteMatching env r name l w b).2.writes = w.writes := by
  induction l with
  | nil => intro w b; rfl
  | cons hd tl ih =>
    intro w b
    obtain ⟨identifier, connection⟩ := hd
    have hd := delete_writes env r w identifier
    unfold deleteMatching
    split
    · split
      · rename_i h; rw [h] at hd; rw [ih]; exact hd
      · rename_i h; rw [h] at hd; rw [ih]; exact hd
    · exact ih w b

theorem deleteByName_writes (env : Env) (r : VirtualMachineReconciler) (w : World)
    (name : String) :
    (deleteGuacamoleConnectionByName env r w name).2.writes = w.writes := by
  have ha := authenticate_writes env r w
  unfold deleteGuacamoleConnectionByName doHTTP
  split
  · rename_i h; rw [h] at ha; exact ha
  · rename_i h; rw [h] at ha; dsimp only at ha ⊢
    split
    · exact ha
    · split
      · rename_i h; rw [Prod.mk.injEq] at h; obtain ⟨-, rfl⟩ := h; exact ha
      · rename_i h; rw [Prod.mk.injEq] at h; obtain ⟨-, rfl⟩ := h
        split
        · exact ha
        · split
          · exact ha
          · rw [deleteMatching_writes]; exact ha


/-! ## Finalizer and map lemmas -/

theorem containsFinalizer_removeFinalizer (vm : VirtualMachine) (f : String) :
    ContainsFinalizer (RemoveFinalizer vm f) f = false := by
  simp [ContainsFinalizer, RemoveFinalizer]

theorem lookup_filter_ne (m : StrMap) (k k' : String) (h : k' ≠ k) :
    (m.filter (fun p => p.1 != k)).lookup k' = m.lookup k' := by
  induction m with
  | nil => rfl
  | cons hd tl ih =>
    obtain ⟨a, b⟩ := hd
    by_cases ha : a = k
    · subst ha
      have hb : (k' == a) = false := by simpa using h
      simp [List.filter_cons, List.lookup_cons, hb, ih]
    · by_cases hk : k' = a
      · subst hk; simp [List.filter_cons, List.lookup_cons, ha]
      · have hb2 : (k' == a) = false := by simpa using hk
        simp [List.filter_cons, List.lookup_cons, ha, hb2, ih]

theorem lookup_mapSet (m : StrMap) (k v k' : String) :
    (mapSet m k v).lookup k' = if k' = k then some v else m.lookup k' := by
  unfold mapSet
  by_cases h : k' = k
  · subst h; simp
  · have hb : (k' == k) = false := by simpa using h
    rw [List.lookup_cons, hb, if_neg h]
    exact lookup_filter_ne m k k' h

/-! ## Reconciliation engine -/

/-- Claim C1. For a VM that carries the cleanup guard, and whatever
`deleteGuacamoleConnectionByName` does and returns, `handleDeletion` issues exactly
one write-back, of the VM with the finalizer removed; the gateway is touched only by
the delete-by-name; and the returned error is the one of that write-back. -/
theorem handleDeletion_removes_finalizer (env : Env) (r : VirtualMachineReconciler)
    (w : World) (vm : VirtualMachine)
    (hfin : ContainsFinalizer vm VMWatcherFinalizer = true) :
    ContainsFinalizer (RemoveFinalizer vm VMWatcherFinalizer) VMWatcherFinalizer = false ∧
    (handleDeletion env r w vm).2.writes
      = w.writes ++ [RemoveFinalizer vm VMWatcherFinalizer] ∧
    (handleDeletion env r w vm).2.httpLog
      = (deleteGuacamoleConnectionByName env r w (vm.Namespace ++ "-" ++ vm.Name)).2.httpLog ∧
    (handleDeletion env r w vm).1
      = (Result.done, env.update w.writes (RemoveFinalizer vm VMWatcherFinalizer)) := by
  have hw := deleteByName_writes env r w (vm.Namespace ++ "-" ++ vm.Name)
  refine ⟨containsFinalizer_removeFinalizer vm _, ?_⟩
  unfold handleDeletion doUpdate
  simp only [hfin, if_true, hw]
  cases env.update w.writes (RemoveFinalizer vm VMWatcherFinalizer) <;> simp [hw]

theorem handleDeletion_removes_finalizer_witness :
    ContainsFinalizer scenarioBVM VMWatcherFinalizer = true ∧
    (deleteGuacamoleConnection scenarioBEnv scenarioReconciler emptyWorld "42").1
      = some "connection deletion failed with status 500: boom" ∧
    (handleDeletion scenarioBEnv scenarioReconciler emptyWorld scenarioBVM).2.writes
      = [RemoveFinalizer scenarioBVM VMWatcherFinalizer] ∧
    (handleDeletion scenarioBEnv scenarioReconciler emptyWorld scenarioBVM).1
      = (Result.done, none) :=
  ⟨rfl, rfl,
   (handleDeletion_removes_finalizer scenarioBEnv scenarioReconciler emptyWorld
      scenarioBVM rfl).2.1,
   (handleDeletion_removes_finalizer scenarioBEnv scenarioReconciler emptyWorld
      scenarioBVM rfl).2.2.2⟩

/-- Claim C2. A VM with no deletion marker, the finalizer attached, not yet processed
and Running: when `createGuacamoleConnection` fails, for whatever reason and after
whatever history, `Reconcile` returns no error and a requeue-after of exactly
`DefaultRetryDelay` = 2 minutes, which is longer than the 30 second not-ready delay,
and writes nothing back, so the stored annotations are as they were. -/
theorem reconcile_create_failure (env : Env) (r : VirtualMachineReconciler) (w w1 : World)
    (ns name err : String) (vm : VirtualMachine)
    (hget : env.getVM ns name = .found vm)
    (hdel : vm.DeletionTimestamp = none)
    (hfin : ContainsFinalizer vm VMWatcherFinalizer = true)
    (hnew : mapIndex vm.Annotations ProcessedAnnotation ≠ "true")
    (hrun : vm.PrintableStatus = VirtualMachineStatusRunning)
    (hfail : createGuacamoleConnection env r w vm = (.error err, w1)) :
    Reconcile env r w ns name
      = (({ Requeue := false, RequeueAfter := DefaultRetryDelay }, none), w1) ∧
    DefaultRetryDelay = 2 * 60 * 1000000000 ∧
    30 * Second < DefaultRetryDelay ∧
    (Reconcile env r w ns name).2.writes = w.writes := by
  have hw := create_writes env r w vm
  rw [hfail] at hw
  have hrec : Reconcile env r w ns name
      = (({ Requeue := false, RequeueAfter := DefaultRetryDelay }, none), w1) := by
    unfold Reconcile
    simp [hget, hdel, hfin, hnew, hrun, hfail]
  refine ⟨hrec, by decide, by decide, ?_⟩
  rw [hrec]; exact hw

theorem reconcile_create_failure_witness :
    mapIndex scenarioCVM.Annotations ProcessedAnnotation ≠ "true" ∧
    Reconcile scenarioCEnv scenarioReconciler emptyWorld "team-a" "demo"
      = (({ Requeue := false, RequeueAfter := 120000000000 }, none),
         (authenticateWithGuacamole scenarioCEnv scenarioReconciler emptyWorld).2) ∧
    (Reconcile scenarioCEnv scenarioReconciler emptyWorld "team-a" "demo").2.writes = [] :=
  ⟨by decide,
   (reconcile_create_failure scenarioCEnv scenarioReconciler emptyWorld
      (authenticateWithGuacamole scenarioCEnv scenarioReconciler emptyWorld).2
      "team-a" "demo" "failed to authenticate: authentication failed with status 401"
      scenarioCVM rfl rfl rfl (by decide) rfl rfl).1,
   (reconcile_create_failure scenarioCEnv scenarioReconciler emptyWorld
      (authenticateWithGuacamole scenarioCEnv scenarioReconciler emptyWorld).2
      "team-a" "demo" "failed to authenticate: authentication failed with status 401"
      scenarioCVM rfl rfl rfl (by decide) rfl rfl).2.2.2⟩

/-- Claim C3. A VM with no deletion marker, the finalizer attached, not yet processed
and Running: when `createGuacamoleConnection` succeeds, `Reconcile` writes the VM back
exactly once; the written VM has `processed` set to `"true"` and `last-status` set to
the current phase `"Running"`, every other annotation and every other field, the
finalizers included, as before; and the result is "done" with no error when that write
succeeds. -/
theorem reconcile_create_success (env : Env) (r : VirtualMachineReconciler) (w w1 : World)
    (ns name id : String) (vm : VirtualMachine)
    (hget : env.getVM ns name = .found vm)
    (hdel : vm.DeletionTimestamp = none)
    (hfin : ContainsFinalizer vm VMWatcherFinalizer = true)
    (hnew : mapIndex vm.Annotations ProcessedAnnotation ≠ "true")
    (hrun : vm.PrintableStatus = VirtualMachineStatusRunning)
    (hok : createGuacamoleConnection env r w vm = (.ok id, w1)) :
    ∃ vm1 : VirtualMachine,
      (Reconcile env r w ns name).2.writes = w.writes ++ [vm1] ∧
      (Reconcile env r w ns name).2.httpLog = w1.httpLog ∧
      mapLookup vm1.Annotations ProcessedAnnotation = some "true" ∧
      mapLookup vm1.Annotations LastStatusAnnotation = some vm.PrintableStatus ∧
      vm.PrintableStatus = "Running" ∧
      (∀ k, k ≠ ProcessedAnnotation → k ≠ LastStatusAnnotation →
        mapLookup vm1.Annotations k = mapLookup vm.Annotations k) ∧
      vm1 = { vm with Annotations := vm1.Annotations } ∧
      vm1.Finalizers = vm.Finalizers ∧
      (Reconcile env r w ns name).1 = (Result.done, env.update w.writes vm1) := by
  have hw := create_writes env r w vm
  rw [hok] at hw
  dsimp only at hw
  refine ⟨{ vm with Annotations := some (mapSet (mapSet (mapOrMake vm.Annotations)
      ProcessedAnnotation "true") LastStatusAnnotation vm.PrintableStatus) }, ?_⟩
  have hPL : ProcessedAnnotation ≠ LastStatusAnnotation := by decide
  refine ⟨?_, ?_, ?_, ?_, hrun, ?_, rfl, rfl, ?_⟩
  · unfold Reconcile doUpdate
    simp only [hget, hdel, hfin, hnew, hrun, hok]
    cases env.update w1.writes _ <;> simp [hnew, VirtualMachineStatusRunning, hw]
  · unfold Reconcile doUpdate
    simp only [hget, hdel, hfin, hnew, hrun, hok]
    cases env.update w1.writes _ <;> simp [hnew, VirtualMachineStatusRunning]
  · simp [mapLookup, lookup_mapSet, hPL]
  · simp [mapLookup, lookup_mapSet]
  · intro k hk1 hk2
    cases hann : vm.Annotations <;>
      simp [mapLookup, lookup_mapSet, hk1, hk2, mapOrMake, hann]
  · unfold Reconcile doUpdate
    simp only [hget, hdel, hfin, hnew, hrun, hok, hw]
    simp only [VirtualMachineStatusRunning, Option.isSome_none, Bool.false_eq_true,
      if_false, Bool.not_true, bne_self_eq_false, ne_eq, not_false_eq_true, bne_iff_ne,
      if_true, hnew]
    split <;> rename_i h <;> rw [Prod.mk.injEq] at h <;> rw [← h.1]

theorem reconcile_create_success_witness :
    ∃ vm1 : VirtualMachine,
      (Reconcile scenarioAEnv scenarioReconciler emptyWorld "team-a" "demo").2.writes
        = emptyWorld.writes ++ [vm1] ∧
      mapLookup vm1.Annotations ProcessedAnnotation = some "true" ∧
      mapLookup vm1.Annotations LastStatusAnnotation = some "Running" ∧
      mapLookup vm1.Annotations "owner" = some "alice" ∧
      (Reconcile scenarioAEnv scenarioReconciler emptyWorld "team-a" "demo").1
        = (Result.done, none) :=
  let ⟨vm1, h1, _, h3, h4, _, h6, _, _, h9⟩ :=
    reconcile_create_success scenarioAEnv scenarioReconciler emptyWorld
      (createGuacamoleConnection scenarioAEnv scenarioReconciler emptyWorld scenarioAVM).2
      "team-a" "demo" "7" scenarioAVM rfl rfl rfl (by decide) rfl rfl
  ⟨vm1, h1, h3, h4, (h6 "owner" (by decide) (by decide)).trans rfl, h9⟩

/-- Claim C4. For a VM with no deletion marker, `Reconcile` sends nothing to the gateway
when the finalizer is missing, or `processed` is `"true"`, or the phase is not Running:
a gateway call needs the finalizer attached, `processed` not `"true"` and phase
Running. A provisioned VM whose phase equals the stored last-observed phase is left
alone: no gateway call, no write-back, result "done". -/
theorem reconcile_gateway_calls_only_when_ready (env : Env) (r : VirtualMachineReconciler)
    (w : World) (ns name : String) (vm : VirtualMachine)
    (hget : env.getVM ns name = .found vm)
    (hdel : vm.DeletionTimestamp = none) :
    ((ContainsFinalizer vm VMWatcherFinalizer = false ∨
        mapIndex vm.Annotations ProcessedAnnotation = "true" ∨
        vm.PrintableStatus ≠ VirtualMachineStatusRunning) →
      (Reconcile env r w ns name).2.httpLog = w.httpLog) ∧
    (ContainsFinalizer vm VMWatcherFinalizer = true →
      mapIndex vm.Annotations ProcessedAnnotation = "true" →
      mapIndex vm.Annotations LastStatusAnnotation = vm.PrintableStatus →
      Reconcile env r w ns name = ((Result.done, none), w)) := by
  constructor
  · intro h
    unfold Reconcile doUpdate
    simp only [hget, hdel, Option.isSome_none, Bool.false_eq_true, if_false]
    by_cases hfin : ContainsFinalizer vm VMWatcherFinalizer = true
    · simp only [hfin, Bool.not_true, Bool.false_eq_true, if_false]
      by_cases hp : mapIndex vm.Annotations ProcessedAnnotation = "true"
      · simp only [hp, bne_self_eq_false, Bool.false_eq_true, if_false]
        split
        · split <;> rename_i h2 <;> rw [Prod.mk.injEq] at h2 <;> rw [← h2.2]
        · rfl
      · have hrun : vm.PrintableStatus ≠ VirtualMachineStatusRunning := by
          rcases h with h | h | h
          · rw [hfin] at h; cases h
          · exact absurd h hp
          · exact h
        simp [hp, hrun]
    · have hfin2 : ContainsFinalizer vm VMWatcherFinalizer = false := by
        simpa using hfin
      simp only [hfin2, Bool.not_false, if_true]
      split <;> rename_i h2 <;> rw [Prod.mk.injEq] at h2 <;> rw [← h2.2]
  · intro hfin hp hl
    unfold Reconcile
    simp [hget, hdel, hfin, hp, hl]

theorem reconcile_gateway_calls_only_when_ready_witness :
    (Reconcile provisionedEnv scenarioReconciler emptyWorld "team-a" "demo").2.httpLog = [] ∧
    Reconcile provisionedEnv scenarioReconciler emptyWorld "team-a" "demo"
      = ((Result.done, none), emptyWorld) :=
  ⟨(reconcile_gateway_calls_only_when_ready provisionedEnv scenarioReconciler emptyWorld
      "team-a" "demo" provisionedVM rfl rfl).1 (Or.inr (Or.inl (by decide))),
   (reconcile_gateway_calls_only_when_ready provisionedEnv scenarioReconciler emptyWorld
      "team-a" "demo" provisionedVM rfl rfl).2 rfl (by decide) (by decide)⟩

/-! ## Connection builder -/

theorem resolveProtocol_cases (vm : VirtualMachine) :
    resolveProtocol vm = "rdp" ∨ resolveProtocol vm = "vnc" := by
  unfold resolveProtocol
  split
  · dsimp only
    split
    · assumption
    · exact Or.inl rfl
  · exact Or.inl rfl

theorem build_ok_inv (env : Env) (vm : VirtualMachine) (c : GuacamoleConnection)
    (hb : buildGuacamoleConnection env vm = .ok c) :
    ∃ hostname parameters,
      getVMHostname env vm = .ok hostname ∧
      protocolParameters vm (resolveProtocol vm)
        (mapSet (mapSet [] "hostname" hostname) "port"
          (resolvePort vm (resolveProtocol vm))) = some parameters ∧
      c = { ParentIdentifier := "ROOT"
            Name := vm.Namespace ++ "-" ++ vm.Name
            Protocol := resolveProtocol vm
            Parameters := fillEmptyParams parameters emptyParams
            Attributes := connectionAttributes } := by
  unfold buildGuacamoleConnection at hb
  dsimp only at hb
  split at hb
  · cases hb
  · rename_i hostname hh
    split at hb
    · cases hb
    · rename_i parameters hp
      exact ⟨hostname, parameters, hh, hp, (Except.ok.inj hb).symm⟩

theorem lookup_fillEmptyParams (keys : List String) (k : String) (hk : k ∉ keys) :
    ∀ p : StrMap, (fillEmptyParams p keys).lookup k = p.lookup k := by
  induction keys with
  | nil => intro p; rfl
  | cons hd tl ih =>
    intro p
    have hne : k ≠ hd := fun h => hk (h ▸ List.mem_cons_self _ _)
    have htl : k ∉ tl := fun h => hk (List.mem_cons_of_mem _ h)
    unfold fillEmptyParams
    split
    · exact ih htl p
    · rw [ih htl, lookup_mapSet, if_neg hne]

theorem lookup_setIfAnnotated_ne (vm : VirtualMachine) (key name k : String) (p : StrMap)
    (h : k ≠ name) : (setIfAnnotated vm key name p).lookup k = p.lookup k := by
  unfold setIfAnnotated
  split
  · rw [lookup_mapSet, if_neg h]
  · rfl

theorem lookup_port_protocolParameters (vm : VirtualMachine) (protocol : String)
    (p q : StrMap) (h : protocolParameters vm protocol p = some q) :
    q.lookup "port" = p.lookup "port" := by
  unfold protocolParameters at h
  split at h
  · cases h
    simp [lookup_setIfAnnotated_ne, lookup_mapSet]
  · split at h
    · cases h
      simp [lookup_setIfAnnotated_ne, lookup_mapSet]
    · cases h

/-- Claim C5. The name of the built spec is `namespace ++ "-" ++ name`; two builds, for
whatever collaborators and whatever else the VMs carry, give the same name when the
VMs agree on namespace and name; and what `handleDeletion` sends to the gateway is
what the delete-by-name of that very name sends. -/
theorem connection_name_of_identity (env env' : Env) (r : VirtualMachineReconciler)
    (w : World) (vm vm' : VirtualMachine) (c c' : GuacamoleConnection)
    (hb : buildGuacamoleConnection env vm = .ok c)
    (hb' : buildGuacamoleConnection env' vm' = .ok c') :
    c.Name = vm.Namespace ++ "-" ++ vm.Name ∧
    (vm.Namespace = vm'.Namespace → vm.Name = vm'.Name → c.Name = c'.Name) ∧
    (handleDeletion env r w vm).2.httpLog
      = (deleteGuacamoleConnectionByName env r w c.Name).2.httpLog := by
  obtain ⟨_, _, _, _, rfl⟩ := build_ok_inv env vm c hb
  obtain ⟨_, _, _, _, rfl⟩ := build_ok_inv env' vm' c' hb'
  refine ⟨rfl, ?_, ?_⟩
  · intro h1 h2
    simp only [h1, h2]
  · unfold handleDeletion doUpdate
    dsimp only
    split
    · split <;> rename_i h2 <;> rw [Prod.mk.injEq] at h2 <;> rw [← h2.2]
    · rfl

theorem connection_name_of_identity_witness :
    buildGuacamoleConnection vncEnv vncVM = .ok vncConnection ∧
    buildGuacamoleConnection rdpEnv rdpVM = .ok rdpConnection ∧
    vncVM.Labels ≠ rdpVM.Labels ∧ vncVM.Annotations ≠ rdpVM.Annotations ∧
    vncConnection.Name = "team-a" ++ "-" ++ "demo" ∧
    vncConnection.Name = rdpConnection.Name :=
  ⟨rfl, rfl, by decide, by decide,
   (connection_name_of_identity vncEnv rdpEnv scenarioReconciler emptyWorld vncVM rdpVM
      vncConnection rdpConnection rfl rfl).1,
   (connection_name_of_identity vncEnv rdpEnv scenarioReconciler emptyWorld vncVM rdpVM
      vncConnection rdpConnection rfl rfl).2.1 rfl rfl⟩

/-- Claim C6. The protocol of the built spec is the lower-cased protocol annotation when
that is `"rdp"` or `"vnc"` (`"VNC"` and `"Vnc"` lower-case to `"vnc"`), and `"rdp"`
otherwise: annotation absent, or any other value, such as `"smtp"` or `""`. -/
theorem protocol_resolution (env : Env) (vm : VirtualMachine) (c : GuacamoleConnection)
    (hb : buildGuacamoleConnection env vm = .ok c) :
    (∀ p, mapLookup vm.Annotations ProtocolAnnotation = some p →
      (toLower p = "rdp" ∨ toLower p = "vnc") → c.Protocol = toLower p) ∧
    (∀ p, mapLookup vm.Annotations ProtocolAnnotation = some p →
      toLower p ≠ "rdp" → toLower p ≠ "vnc" → c.Protocol = "rdp") ∧
    (mapLookup vm.Annotations ProtocolAnnotation = none → c.Protocol = "rdp") ∧
    toLower "VNC" = "vnc" ∧ toLower "Vnc" = "vnc" ∧
    (toLower "smtp" ≠ "rdp" ∧ toLower "smtp" ≠ "vnc") ∧
    (toLower "" ≠ "rdp" ∧ toLower "" ≠ "vnc") := by
  obtain ⟨_, _, _, _, rfl⟩ := build_ok_inv env vm c hb
  refine ⟨?_, ?_, ?_, by decide, by decide, by decide, by decide⟩
  · intro p hp hlow
    simp only [resolveProtocol, hp, hlow, if_true]
  · intro p hp h1 h2
    simp only [resolveProtocol, hp, h1, h2, or_self, if_false]
  · intro hp
    simp only [resolveProtocol, hp]

theorem protocol_resolution_witness :
    mapLookup vncVM.Annotations ProtocolAnnotation = some "Vnc" ∧
    vncConnection.Protocol = "vnc" ∧
    mapLookup rdpVM.Annotations ProtocolAnnotation = some "smtp" ∧
    rdpConnection.Protocol = "rdp" :=
  ⟨rfl,
   ((protocol_resolution vncEnv vncVM vncConnection rfl).1 "Vnc" rfl
      (Or.inr (by decide))).trans (by decide),
   rfl,
   (protocol_resolution rdpEnv rdpVM rdpConnection rfl).2.1 "smtp" rfl
      (by decide) (by decide)⟩

theorem resolvePort_eq_specPort (vm : VirtualMachine) (protocol : String)
    (h : protocol = "rdp" ∨ protocol = "vnc") :
    resolvePort vm protocol = specPort protocol (mapLookup vm.Annotations PortAnnotation) := by
  unfold resolvePort specPort specDefaultPort specOtherDefaultPort
  rcases h with h | h <;> subst h <;>
    cases mapLookup vm.Annotations PortAnnotation <;> simp

/-- Claim C7. The `port` parameter of the built spec is the port that the rule of the
specification gives for the spec's protocol and the port annotation: the annotation
when present, else the protocol's default, replaced by the protocol's default when it
equals the other protocol's default. So vnc with no annotation or with `"3389"` gives
`"5900"`, rdp with `"5900"` gives `"3389"`, and any other annotation is passed on. -/
theorem port_resolution (env : Env) (vm : VirtualMachine) (c : GuacamoleConnection)
    (hb : buildGuacamoleConnection env vm = .ok c) :
    c.Parameters.lookup "port"
      = some (specPort c.Protocol (mapLookup vm.Annotations PortAnnotation)) ∧
    (c.Protocol = "vnc" → mapLookup vm.Annotations PortAnnotation = none →
      c.Parameters.lookup "port" = some "5900") ∧
    (c.Protocol = "rdp" → mapLookup vm.Annotations PortAnnotation = none →
      c.Parameters.lookup "port" = some "3389") ∧
    (c.Protocol = "vnc" → mapLookup vm.Annotations PortAnnotation = some "3389" →
      c.Parameters.lookup "port" = some "5900") ∧
    (c.Protocol = "rdp" → mapLookup vm.Annotations PortAnnotation = some "5900" →
      c.Parameters.lookup "port" = some "3389") ∧
    (∀ p, mapLookup vm.Annotations PortAnnotation = some p → p ≠ "3389" → p ≠ "5900" →
      c.Parameters.lookup "port" = some p) := by
  obtain ⟨hostname, parameters, _, hp, rfl⟩ := build_ok_inv env vm c hb
  have hport : (fillEmptyParams parameters emptyParams).lookup "port"
      = some (specPort (resolveProtocol vm) (mapLookup vm.Annotations PortAnnotation)) := by
    rw [lookup_fillEmptyParams _ _ (by decide),
      lookup_port_protocolParameters vm _ _ _ hp, lookup_mapSet, if_pos rfl,
      resolvePort_eq_specPort vm _ (resolveProtocol_cases vm)]
  dsimp only
  rw [hport]
  refine ⟨rfl, ?_, ?_, ?_, ?_, ?_⟩
  · intro h1 h2; rw [h1, h2]; rfl
  · intro h1 h2; rw [h1, h2]; rfl
  · intro h1 h2; rw [h1, h2]; rfl
  · intro h1 h2; rw [h1, h2]; rfl
  · intro p h1 h2 h3
    rw [h1]
    rcases resolveProtocol_cases vm with h | h <;> rw [h] <;>
      simp [specPort, specDefaultPort, specOtherDefaultPort, h2, h3]

theorem port_resolution_witness :
    vncConnection.Parameters.lookup "port" = some "5900" ∧
    mapLookup rdpVM.Annotations PortAnnotation = some "5900" ∧
    rdpConnection.Parameters.lookup "port" = some "3389" :=
  ⟨(port_resolution vncEnv vncVM vncConnection rfl).2.1 rfl rfl,
   rfl,
   (port_resolution rdpEnv rdpVM rdpConnection rfl).2.2.2.2.1 rfl rfl⟩

/-! ## Hostname resolution -/

theorem firstInterfaceIP_eq_find (l : List VMIInterface) :
    firstInterfaceIP l = (l.find? (fun i => i.IP != "")).map (fun i => i.IP) := by
  induction l with
  | nil => rfl
  | cons hd tl ih =>
    unfold firstInterfaceIP
    by_cases h : hd.IP = ""
    · simp [h, ih, List.find?_cons]
    · simp [h, List.find?_cons]

theorem scanServices_eq_find (vm : VirtualMachine) (l : List Service) :
    scanServices vm l = (l.find? (serviceMatches vm)).map
      (fun svc => svc.Name ++ "." ++ svc.Namespace ++ ".svc.cluster.local") := by
  induction l with
  | nil => rfl
  | cons hd tl ih =>
    unfold scanServices
    by_cases h : serviceMatches vm hd = true
    · simp [h, List.find?_cons]
    · have h2 : serviceMatches vm hd = false := by simpa using h
      simp [h2, ih, List.find?_cons]

/-- Claim C8, counterexample. The running instance of VM `demo` is missing and service
`web` of its namespace matches its labels, yet the hostname is the VM name `demo`, not
the DNS name of the service. -/
theorem hostname_missing_instance_ignores_services :
    missingInstanceEnv.getVMI "team-a" "demo" = .notFound "not found" ∧
    missingInstanceEnv.listServices "team-a" = .ok [webService] ∧
    serviceMatches scenarioCVM webService = true ∧
    getVMHostname missingInstanceEnv scenarioCVM = .ok "demo" ∧
    "demo" ≠ "web.team-a.svc.cluster.local" :=
  ⟨rfl, rfl, rfl, rfl, by decide⟩

/-- Claim C8, amended. `getVMHostname` on the running-instance lookup: a lookup error
other than not-found is returned as an error; a missing instance gives the VM name,
whatever services exist; a found instance gives the address of its first interface,
in order, that has a non-empty one; a found instance with no address gives the DNS name
`<service>.<namespace>.svc.cluster.local` of the first listed service that matches,
and the VM name when none matches or the listing fails. -/
theorem hostname_three_tier (env : Env) (vm : VirtualMachine) :
    (∀ vmi iface, env.getVMI vm.Namespace vm.Name = .found vmi →
      vmi.Interfaces.find? (fun i => i.IP != "") = some iface →
      getVMHostname env vm = .ok iface.IP) ∧
    (∀ vmi items svc, env.getVMI vm.Namespace vm.Name = .found vmi →
      vmi.Interfaces.find? (fun i => i.IP != "") = none →
      env.listServices vm.Namespace = .ok items →
      items.find? (serviceMatches vm) = some svc →
      getVMHostname env vm
        = .ok (svc.Name ++ "." ++ svc.Namespace ++ ".svc.cluster.local")) ∧
    (∀ vmi items, env.getVMI vm.Namespace vm.Name = .found vmi →
      vmi.Interfaces.find? (fun i => i.IP != "") = none →
      env.listServices vm.Namespace = .ok items →
      items.find? (serviceMatches vm) = none →
      getVMHostname env vm = .ok vm.Name) ∧
    (∀ vmi err, env.getVMI vm.Namespace vm.Name = .found vmi →
      vmi.Interfaces.find? (fun i => i.IP != "") = none →
      env.listServices vm.Namespace = .error err →
      getVMHostname env vm = .ok vm.Name) ∧
    (∀ msg, env.getVMI vm.Namespace vm.Name = .notFound msg →
      getVMHostname env vm = .ok vm.Name) ∧
    (∀ msg, env.getVMI vm.Namespace vm.Name = .failed msg →
      getVMHostname env vm = .error ("failed to get VMI: " ++ msg)) := by
  refine ⟨?_, ?_, ?_, ?_, ?_, ?_⟩
  · intro vmi iface h1 h2
    simp [getVMHostname, h1, firstInterfaceIP_eq_find, h2]
  · intro vmi items svc h1 h2 h3 h4
    simp [getVMHostname, h1, firstInterfaceIP_eq_find, h2, h3, scanServices_eq_find, h4]
  · intro vmi items h1 h2 h3 h4
    simp [getVMHostname, h1, firstInterfaceIP_eq_find, h2, h3, scanServices_eq_find, h4]
  · intro vmi err h1 h2 h3
    simp [getVMHostname, h1, firstInterfaceIP_eq_find, h2, h3]
  · intro msg h1
    simp [getVMHostname, h1]
  · intro msg h1
    simp [getVMHostname, h1]

theorem hostname_three_tier_witness :
    getVMHostname scenarioAEnv scenarioAVM = .ok "10.0.0.5" ∧
    getVMHostname noAddressEnv scenarioCVM = .ok "web.team-a.svc.cluster.local" ∧
    getVMHostname missingInstanceEnv scenarioCVM = .ok "demo" :=
  ⟨(hostname_three_tier scenarioAEnv scenarioAVM).1
      { Interfaces := [{ IP := "" }, { IP := "10.0.0.5" }] } { IP := "10.0.0.5" } rfl rfl,
   (hostname_three_tier noAddressEnv scenarioCVM).2.1
      { Interfaces := [{ IP := "" }] } [webService] webService rfl rfl rfl rfl,
   (hostname_three_tier missingInstanceEnv scenarioCVM).2.2.2.2.1 "not found" rfl⟩

theorem selectorMatches_eq_all (labels : Option StrMap) (sel : StrMap) :
    selectorMatches labels sel = sel.all (fun p => mapIndex labels p.1 == p.2) := by
  induction sel with
  | nil => rfl
  | cons hd tl ih =>
    obtain ⟨k, v⟩ := hd
    unfold selectorMatches
    by_cases h : mapIndex labels k = v
    · simp [h, ih]
    · simp [h]

/-- Claim C9, counterexample. A service without a selector has no pair that could be
missing from the labels, yet it does not match; and a selector asking for key `tier`
with the empty value matches a VM whose labels have no key `tier`. -/
theorem selector_match_counterexample :
    (specSelectorMatches scenarioCVM.Labels headlessService.Selector = true ∧
      serviceMatches scenarioCVM headlessService = false) ∧
    (mapLookup scenarioCVM.Labels "tier" = none ∧
      specSelectorMatches scenarioCVM.Labels emptyValueService.Selector = false ∧
      serviceMatches scenarioCVM emptyValueService = true) :=
  ⟨⟨rfl, rfl⟩, rfl, rfl, rfl⟩

/-- Claim C9, amended. A service without a selector never matches. A service with a
selector matches whenever every key/value pair of the selector is present in the
labels with an equal value, so a selector with no pairs matches every label set; and
when no value of the selector is empty, it matches only then. -/
theorem selector_match (vm : VirtualMachine) (svc : Service) :
    (svc.Selector = none → serviceMatches vm svc = false) ∧
    (∀ sel, svc.Selector = some sel →
      specSelectorMatches vm.Labels (some sel) = true → serviceMatches vm svc = true) ∧
    (svc.Selector = some [] → serviceMatches vm svc = true) ∧
    (∀ sel, svc.Selector = some sel → (∀ p ∈ sel, p.2 ≠ "") →
      (serviceMatches vm svc = true ↔ specSelectorMatches vm.Labels (some sel) = true)) := by
  have key : ∀ sel : StrMap, specSelectorMatches vm.Labels (some sel) = true →
      selectorMatches vm.Labels sel = true := by
    intro sel h
    rw [selectorMatches_eq_all]
    simp only [specSelectorMatches, Option.getD_some, List.all_eq_true, beq_iff_eq] at h ⊢
    intro p hp
    simp [mapIndex, h p hp]
  refine ⟨?_, ?_, ?_, ?_⟩
  · intro h
    simp [serviceMatches, h]
  · intro sel hs h
    simp only [serviceMatches, hs]
    exact key sel h
  · intro hs
    simp [serviceMatches, hs, selectorMatches]
  · intro sel hs hne
    simp only [serviceMatches, hs]
    refine ⟨?_, key sel⟩
    intro h
    rw [selectorMatches_eq_all] at h
    simp only [specSelectorMatches, Option.getD_some, List.all_eq_true, beq_iff_eq] at h ⊢
    intro p hp
    have h1 := h p hp
    have h2 := hne p hp
    unfold mapIndex at h1
    cases hl : mapLookup vm.Labels p.1 with
    | none => rw [hl] at h1; exact absurd h1.symm h2
    | some v => rw [hl] at h1; exact congrArg some h1

theorem selector_match_witness :
    serviceMatches scenarioCVM headlessService = false ∧
    serviceMatches scenarioCVM webService = true ∧
    (serviceMatches scenarioCVM webService = true ↔
      specSelectorMatches scenarioCVM.Labels (some [("app", "demo")]) = true) :=
  ⟨(selector_match scenarioCVM headlessService).1 rfl,
   (selector_match scenarioCVM webService).2.1 [("app", "demo")] rfl rfl,
   (selector_match scenarioCVM webService).2.2.2 [("app", "demo")] rfl (by decide)⟩

/-! ## Gateway client -/

/-- Claim C10, counterexample. With a successful authentication and a completed exchange,
a delete answered with status 201, which lies in 200–299, returns an error. -/
theorem delete_created_is_error :
    (authenticateWithGuacamole createdOnDeleteEnv scenarioReconciler emptyWorld).1
      = .ok { AuthToken := "t", Username := "admin", DataSource := "postgresql"
              AvailableDataSources := ["postgresql"] } ∧
    createdOnDeleteEnv.http [] { method := "DELETE", url := "", contentType := "", body := "" }
      = .response 201 "boom" ∧
    ((200 : Int) ≤ 201 ∧ (201 : Int) ≤ 299) ∧
    (deleteGuacamoleConnection createdOnDeleteEnv scenarioReconciler emptyWorld "42").1
      = some "connection deletion failed with status 201: boom" :=
  ⟨rfl, rfl, by decide, rfl⟩

/-- Claim C10, amended. For a non-empty connection id, a successful authentication and
a completed exchange, `deleteGuacamoleConnection` returns success exactly when the
status is 200, 204 or 404; every other status, other 2xx ones included, is an error. -/
theorem delete_success_statuses (env : Env) (r : VirtualMachineReconciler) (w w1 : World)
    (connectionID : String) (authResp : GuacamoleAuthResponse) (status : Int)
    (body : String)
    (hid : connectionID ≠ "")
    (hauth : authenticateWithGuacamole env r w = (.ok authResp, w1))
    (hreq : env.newRequest "DELETE"
      (trimSuffix r.GuacamoleBaseURL "/" ++ "/api/session/data/" ++
        authResp.DataSource ++ "/connections/" ++ connectionID ++ "?token=" ++
        authResp.AuthToken) = none)
    (hresp : env.http w1.httpLog
      { method := "DELETE"
        url := trimSuffix r.GuacamoleBaseURL "/" ++ "/api/session/data/" ++
          authResp.DataSource ++ "/connections/" ++ connectionID ++ "?token=" ++
          authResp.AuthToken
        contentType := "", body := "" } = .response status body) :
    (deleteGuacamoleConnection env r w connectionID).1 = none ↔
      (status = 200 ∨ status = 204 ∨ status = 404) := by
  unfold deleteGuacamoleConnection doHTTP
  simp only [hid, if_false, hauth, hreq, hresp]
  by_cases h1 : status = 200 ∨ status = 204
  · simp only [h1, if_true, true_iff]
    rcases h1 with h | h
    · exact Or.inl h
    · exact Or.inr (Or.inl h)
  · by_cases h2 : status = 404
    · simp [h2]
    · rw [if_neg h1, if_neg h2]
      constructor
      · intro h; cases h
      · rintro (h | h | h)
        · exact absurd (Or.inl h) h1
        · exact absurd (Or.inr h) h1
        · exact absurd h h2

theorem delete_success_statuses_witness :
    (deleteGuacamoleConnection notFoundOnDeleteEnv scenarioReconciler emptyWorld "42").1
      = none :=
  (delete_success_statuses notFoundOnDeleteEnv scenarioReconciler emptyWorld
    (authenticateWithGuacamole notFoundOnDeleteEnv scenarioReconciler emptyWorld).2
    "42" { AuthToken := "t", Username := "admin", DataSource := "postgresql"
           AvailableDataSources := ["postgresql"] } 404 "boom"
    (by decide) rfl rfl rfl).2 (Or.inr (Or.inr rfl))

/-! ## Delete-by-name -/

theorem deleteMatching_eq_specDeleteEach (env : Env) (r : VirtualMachineReconciler)
    (name : String) (l : List (String × GuacamoleConnectionResponse)) :
    ∀ (w : World) (b : Bool),
      (deleteMatching env r name l w b).2
        = specDeleteEach env r (specMatchingIds name l) w := by
  induction l with
  | nil => intro w b; rfl
  | cons hd tl ih =>
    intro w b
    obtain ⟨identifier, connection⟩ := hd
    unfold deleteMatching
    by_cases h : connection.Name = name
    · simp only [h, if_true]
      have hs : specDeleteEach env r (specMatchingIds name ((identifier, connection) :: tl)) w
          = specDeleteEach env r (specMatchingIds name tl)
              (deleteGuacamoleConnection env r w identifier).2 := by
        simp [specDeleteEach, specMatchingIds, List.filter_cons, h]
      rw [hs]
      split
      · rename_i h2; rw [h2]; exact ih _ _
      · rename_i h2; rw [h2]; exact ih _ _
    · simp only [h, if_false]
      rw [ih]
      simp [specMatchingIds, List.filter_cons, h]

/-- Claim C11. After a successful authentication and a listing answered with status 200
and a decodable body, `deleteGuacamoleConnectionByName` returns success, and what it
does is one delete-by-id for each listed identifier whose connection name equals the
given name, in listing order, each one made whatever the earlier ones returned, and
nothing for any other identifier. -/
theorem deleteByName_deletes_exact_matches (env : Env) (r : VirtualMachineReconciler)
    (w w1 : World) (connectionName body : String) (authResp : GuacamoleAuthResponse)
    (connections : List (String × GuacamoleConnectionResponse))
    (hauth : authenticateWithGuacamole env r w = (.ok authResp, w1))
    (hreq : env.newRequest "GET"
      (trimSuffix r.GuacamoleBaseURL "/" ++ "/api/session/data/" ++
        authResp.DataSource ++ "/connections?token=" ++ authResp.AuthToken) = none)
    (hresp : env.http w1.httpLog
      { method := "GET"
        url := trimSuffix r.GuacamoleBaseURL "/" ++ "/api/session/data/" ++
          authResp.DataSource ++ "/connections?token=" ++ authResp.AuthToken
        contentType := "", body := "" } = .response 200 body)
    (hdec : env.decodeConns body = .ok connections) :
    (deleteGuacamoleConnectionByName env r w connectionName).1 = none ∧
    (deleteGuacamoleConnectionByName env r w connectionName).2
      = specDeleteEach env r (specMatchingIds connectionName connections)
          (doHTTP env w1
            { method := "GET"
              url := trimSuffix r.GuacamoleBaseURL "/" ++ "/api/session/data/" ++
                authResp.DataSource ++ "/connections?token=" ++ authResp.AuthToken
              contentType := "", body := "" }).2 ∧
    (∀ p ∈ connections,
      p.1 ∈ specMatchingIds connectionName connections → ∃ q ∈ connections,
        q.1 = p.1 ∧ q.2.Name = connectionName) ∧
    (∀ p ∈ connections, p.2.Name = connectionName →
      p.1 ∈ specMatchingIds connectionName connections) := by
  refine ⟨?_, ?_, ?_, ?_⟩
  · unfold deleteGuacamoleConnectionByName doHTTP
    simp [hauth, hreq, hresp, hdec]
  · unfold deleteGuacamoleConnectionByName doHTTP
    simp [hauth, hreq, hresp, hdec, deleteMatching_eq_specDeleteEach]
  · intro p _ hp
    simp only [specMatchingIds, List.mem_map, List.mem_filter, decide_eq_true_eq] at hp
    obtain ⟨q, ⟨hq, hn⟩, he⟩ := hp
    exact ⟨q, hq, he, hn⟩
  · intro p hp hn
    simp only [specMatchingIds, List.mem_map, List.mem_filter, decide_eq_true_eq]
    exact ⟨p, ⟨hp, hn⟩, rfl⟩

theorem deleteByName_deletes_exact_matches_witness :
    specMatchingIds "team-a-demo" crowdedListing = ["42", "45"] ∧
    (deleteGuacamoleConnection crowdedEnv scenarioReconciler emptyWorld "42").1
      = some "connection deletion failed with status 500: boom" ∧
    (deleteGuacamoleConnectionByName crowdedEnv scenarioReconciler emptyWorld
      "team-a-demo").1 = none ∧
    ((deleteGuacamoleConnectionByName crowdedEnv scenarioReconciler emptyWorld
      "team-a-demo").2.httpLog.filter (fun q => q.method == "DELETE")).map (fun q => q.url)
      = ["https://guacamole.example.com/api/session/data/postgresql/connections/42?token=t",
         "https://guacamole.example.com/api/session/data/postgresql/connections/45?token=t"] :=
  ⟨rfl, rfl,
   (deleteByName_deletes_exact_matches crowdedEnv scenarioReconciler emptyWorld
      (authenticateWithGuacamole crowdedEnv scenarioReconciler emptyWorld).2
      "team-a-demo" "" scenarioAuth crowdedListing rfl rfl rfl rfl).1,
   rfl⟩

/-! ## Admission filter -/

/-- Claim C12. Every create event and every delete event is admitted. An update event
is admitted exactly when the processed annotation (an absent one reads as the empty
string), the phase or the generation differs between old and new, or the deletion
marker is unset on old and set on new. So an update that changes the phase or starts
deletion is admitted, and one that leaves those four alone is filtered out. -/
theorem admission_filter (oldVM newVM : VirtualMachine) :
    CreateFunc newVM = true ∧
    DeleteFunc newVM = true ∧
    (UpdateFunc oldVM newVM = true ↔
      (mapIndex oldVM.Annotations ProcessedAnnotation
          ≠ mapIndex newVM.Annotations ProcessedAnnotation ∨
        oldVM.PrintableStatus ≠ newVM.PrintableStatus ∨
        oldVM.Generation ≠ newVM.Generation ∨
        (oldVM.DeletionTimestamp = none ∧ newVM.DeletionTimestamp ≠ none))) ∧
    (oldVM.PrintableStatus ≠ newVM.PrintableStatus → UpdateFunc oldVM newVM = true) ∧
    (oldVM.DeletionTimestamp = none → newVM.DeletionTimestamp ≠ none →
      UpdateFunc oldVM newVM = true) ∧
    (mapIndex oldVM.Annotations ProcessedAnnotation
        = mapIndex newVM.Annotations ProcessedAnnotation →
      oldVM.PrintableStatus = newVM.PrintableStatus →
      oldVM.Generation = newVM.Generation →
      oldVM.DeletionTimestamp = newVM.DeletionTimestamp →
      UpdateFunc oldVM newVM = false) := by
  have hiff : UpdateFunc oldVM newVM = true ↔
      (mapIndex oldVM.Annotations ProcessedAnnotation
          ≠ mapIndex newVM.Annotations ProcessedAnnotation ∨
        oldVM.PrintableStatus ≠ newVM.PrintableStatus ∨
        oldVM.Generation ≠ newVM.Generation ∨
        (oldVM.DeletionTimestamp = none ∧ newVM.DeletionTimestamp ≠ none)) := by
    unfold UpdateFunc
    simp only [Bool.or_eq_true, Bool.and_eq_true, bne_iff_ne, ne_eq, Option.isNone_iff_eq_none,
      Option.isSome_iff_ne_none, or_assoc]
  refine ⟨rfl, rfl, hiff, ?_, ?_, ?_⟩
  · intro h
    exact hiff.2 (Or.inr (Or.inl h))
  · intro h1 h2
    exact hiff.2 (Or.inr (Or.inr (Or.inr ⟨h1, h2⟩)))
  · intro h1 h2 h3 h4
    cases hu : UpdateFunc oldVM newVM with
    | false => rfl
    | true =>
      rcases hiff.1 hu with h | h | h | ⟨h5, h6⟩
      · exact absurd h1 h
      · exact absurd h2 h
      · exact absurd h3 h
      · rw [← h4] at h6; exact absurd h5 h6

theorem admission_filter_witness :
    provisionedVM.Labels ≠ relabelledVM.Labels ∧
    mapIndex provisionedVM.Annotations LastStatusAnnotation
      ≠ mapIndex relabelledVM.Annotations LastStatusAnnotation ∧
    UpdateFunc provisionedVM relabelledVM = false ∧
    UpdateFunc provisionedVM stoppedVM = true ∧
    UpdateFunc scenarioCVM scenarioBVM = true :=
  ⟨by decide, by decide,
   (admission_filter provisionedVM relabelledVM).2.2.2.2.2 rfl rfl rfl rfl,
   (admission_filter provisionedVM stoppedVM).2.2.2.1 (by decide),
   (admission_filter scenarioCVM scenarioBVM).2.2.2.2.1 rfl (by decide)⟩

/-! ## Reconciliation engine, remaining transitions -/

theorem containsFinalizer_addFinalizer (vm : VirtualMachine) (f : String) :
    ContainsFinalizer (AddFinalizer vm f) f = true := by
  unfold AddFinalizer ContainsFinalizer
  split
  · assumption
  · simp

/-- Claim C13. A VM with no deletion marker that lacks the finalizer, whatever its phase
and annotations: `Reconcile` writes the VM back exactly once, with the finalizer added
and the annotations as they were, sends nothing to the gateway, and returns "requeue
immediately" with no error when the write succeeds and the error of the write when it
fails. -/
theorem reconcile_adds_finalizer (env : Env) (r : VirtualMachineReconciler) (w : World)
    (ns name : String) (vm : VirtualMachine)
    (hget : env.getVM ns name = .found vm)
    (hdel : vm.DeletionTimestamp = none)
    (hfin : ContainsFinalizer vm VMWatcherFinalizer = false) :
    (Reconcile env r w ns name).2.writes
      = w.writes ++ [AddFinalizer vm VMWatcherFinalizer] ∧
    (Reconcile env r w ns name).2.httpLog = w.httpLog ∧
    ContainsFinalizer (AddFinalizer vm VMWatcherFinalizer) VMWatcherFinalizer = true ∧
    (AddFinalizer vm VMWatcherFinalizer).Annotations = vm.Annotations ∧
    (AddFinalizer vm VMWatcherFinalizer).PrintableStatus = vm.PrintableStatus ∧
    (env.update w.writes (AddFinalizer vm VMWatcherFinalizer) = none →
      (Reconcile env r w ns name).1 = ({ Requeue := true, RequeueAfter := 0 }, none)) ∧
    (∀ err, env.update w.writes (AddFinalizer vm VMWatcherFinalizer) = some err →
      (Reconcile env r w ns name).1 = (Result.done, some err)) := by
  have hann : (AddFinalizer vm VMWatcherFinalizer).Annotations = vm.Annotations ∧
      (AddFinalizer vm VMWatcherFinalizer).PrintableStatus = vm.PrintableStatus := by
    unfold AddFinalizer
    split <;> exact ⟨rfl, rfl⟩
  have hrec : Reconcile env r w ns name
      = (match doUpdate env w (AddFinalizer vm VMWatcherFinalizer) with
          | (some err, w1) => ((Result.done, some err), w1)
          | (none, w1) => (({ Requeue := true, RequeueAfter := 0 }, none), w1)) := by
    unfold Reconcile
    simp only [hget, hdel, hfin, Option.isSome_none, Bool.false_eq_true, if_false,
      Bool.not_false, if_true]
  rw [hrec]
  unfold doUpdate
  refine ⟨?_, ?_, containsFinalizer_addFinalizer vm _, hann.1, hann.2, ?_, ?_⟩
  · cases env.update w.writes (AddFinalizer vm VMWatcherFinalizer) <;> rfl
  · cases env.update w.writes (AddFinalizer vm VMWatcherFinalizer) <;> rfl
  · intro h; rw [h]
  · intro err h; rw [h]

theorem reconcile_adds_finalizer_witness :
    (Reconcile unseenEnv scenarioReconciler emptyWorld "team-a" "demo").2.writes
      = [{ unseenVM with Finalizers := [VMWatcherFinalizer] }] ∧
    (Reconcile unseenEnv scenarioReconciler emptyWorld "team-a" "demo").1
      = ({ Requeue := true, RequeueAfter := 0 }, none) :=
  ⟨(reconcile_adds_finalizer unseenEnv scenarioReconciler emptyWorld "team-a" "demo"
      unseenVM rfl rfl rfl).1,
   (reconcile_adds_finalizer unseenEnv scenarioReconciler emptyWorld "team-a" "demo"
      unseenVM rfl rfl rfl).2.2.2.2.2.1 rfl⟩

/-- Claim C14. A VM with no deletion marker, the finalizer attached and not yet
processed, whose phase is anything but Running, the empty phase included: `Reconcile`
returns no error and a requeue-after of exactly 30 seconds and leaves the world as it
was, so there is no write-back and no gateway call. -/
theorem reconcile_waits_for_running (env : Env) (r : VirtualMachineReconciler) (w : World)
    (ns name : String) (vm : VirtualMachine)
    (hget : env.getVM ns name = .found vm)
    (hdel : vm.DeletionTimestamp = none)
    (hfin : ContainsFinalizer vm VMWatcherFinalizer = true)
    (hnew : mapIndex vm.Annotations ProcessedAnnotation ≠ "true")
    (hrun : vm.PrintableStatus ≠ VirtualMachineStatusRunning) :
    Reconcile env r w ns name
      = (({ Requeue := false, RequeueAfter := 30 * Second }, none), w) ∧
    30 * Second = 30000000000 ∧
    (Reconcile env r w ns name).2.writes = w.writes := by
  have hrec : Reconcile env r w ns name
      = (({ Requeue := false, RequeueAfter := 30 * Second }, none), w) := by
    unfold Reconcile
    simp [hget, hdel, hfin, hnew, hrun]
  refine ⟨hrec, by decide, ?_⟩
  rw [hrec]

theorem reconcile_waits_for_running_witness :
    Reconcile startingEnv scenarioReconciler emptyWorld "team-a" "demo"
      = (({ Requeue := false, RequeueAfter := 30000000000 }, none), emptyWorld) :=
  (reconcile_waits_for_running startingEnv scenarioReconciler emptyWorld "team-a" "demo"
    startingVM rfl rfl rfl (by decide) (by decide)).1

/-- Claim C15, counterexample. A provisioned VM with no stored last-observed phase and
phase `Stopped`: the phase differs from what is stored, yet `Reconcile` writes nothing
back and returns "done". -/
theorem reconcile_unrecorded_phase_not_stored :
    ContainsFinalizer unrecordedVM VMWatcherFinalizer = true ∧
    unrecordedVM.DeletionTimestamp = none ∧
    mapIndex unrecordedVM.Annotations ProcessedAnnotation = "true" ∧
    mapLookup unrecordedVM.Annotations LastStatusAnnotation = none ∧
    unrecordedVM.PrintableStatus = "Stopped" ∧
    Reconcile unrecordedEnv scenarioReconciler emptyWorld "team-a" "demo"
      = ((Result.done, none), emptyWorld) ∧
    (Reconcile unrecordedEnv scenarioReconciler emptyWorld "team-a" "demo").2.writes = [] :=
  ⟨rfl, rfl, rfl, rfl, rfl, rfl, rfl⟩

/-- Claim C15, amended. A provisioned VM (no deletion marker, finalizer attached,
`processed` = `"true"`). When the stored last-observed phase is non-empty and differs
from the current phase, `Reconcile` writes the VM back exactly once, with `last-status`
set to the current phase and every other annotation, `processed` included, and every
other field unchanged, sends nothing to the gateway, and returns "done" with the error
of that write, if any. When no last-observed phase is stored (absent or empty),
`Reconcile` writes nothing and returns "done". -/
theorem reconcile_records_phase_change (env : Env) (r : VirtualMachineReconciler)
    (w : World) (ns name : String) (vm : VirtualMachine)
    (hget : env.getVM ns name = .found vm)
    (hdel : vm.DeletionTimestamp = none)
    (hfin : ContainsFinalizer vm VMWatcherFinalizer = true)
    (hp : mapIndex vm.Annotations ProcessedAnnotation = "true") :
    (mapIndex vm.Annotations LastStatusAnnotation ≠ "" →
      mapIndex vm.Annotations LastStatusAnnotation ≠ vm.PrintableStatus →
      ∃ vm1 : VirtualMachine,
        (Reconcile env r w ns name).2.writes = w.writes ++ [vm1] ∧
        (Reconcile env r w ns name).2.httpLog = w.httpLog ∧
        mapLookup vm1.Annotations LastStatusAnnotation = some vm.PrintableStatus ∧
        mapIndex vm1.Annotations ProcessedAnnotation = "true" ∧
        (∀ k, k ≠ LastStatusAnnotation →
          mapLookup vm1.Annotations k = mapLookup vm.Annotations k) ∧
        vm1 = { vm with Annotations := vm1.Annotations } ∧
        (Reconcile env r w ns name).1 = (Result.done, env.update w.writes vm1)) ∧
    (mapIndex vm.Annotations LastStatusAnnotation = "" →
      Reconcile env r w ns name = ((Result.done, none), w)) := by
  constructor
  · intro hl1 hl2
    have hrec : Reconcile env r w ns name
        = (match doUpdate env w { vm with Annotations := some (mapSet
              (mapOrMake vm.Annotations) LastStatusAnnotation vm.PrintableStatus) } with
            | (some err, w1) => ((Result.done, some err), w1)
            | (none, w1) => ((Result.done, none), w1)) := by
      unfold Reconcile
      simp only [hget, hdel, hfin, hp, Option.isSome_none, Bool.false_eq_true, if_false,
        Bool.not_true, bne_self_eq_false]
      have hc : (mapIndex vm.Annotations LastStatusAnnotation != "" &&
          mapIndex vm.Annotations LastStatusAnnotation != vm.PrintableStatus) = true := by
        simp [hl1, hl2]
      simp only [hc, if_true]
    refine ⟨{ vm with Annotations := some (mapSet (mapOrMake vm.Annotations)
      LastStatusAnnotation vm.PrintableStatus) }, ?_⟩
    rw [hrec]
    unfold doUpdate
    have hother : ∀ k, k ≠ LastStatusAnnotation →
        mapLookup (some (mapSet (mapOrMake vm.Annotations) LastStatusAnnotation
          vm.PrintableStatus)) k = mapLookup vm.Annotations k := by
      intro k hk
      cases hann : vm.Annotations <;> simp [mapLookup, lookup_mapSet, hk, mapOrMake]
    refine ⟨?_, ?_, ?_, ?_, hother, rfl, ?_⟩
    · cases env.update w.writes _ <;> rfl
    · cases env.update w.writes _ <;> rfl
    · simp [mapLookup, lookup_mapSet]
    · have hk := hother ProcessedAnnotation (by decide)
      unfold mapIndex at hp
      unfold mapIndex
      dsimp only
      rw [hk]; exact hp
    · split <;> rename_i h <;> rw [Prod.mk.injEq] at h <;> rw [← h.1]
  · intro hl
    unfold Reconcile
    simp [hget, hdel, hfin, hp, hl]

theorem reconcile_records_phase_change_witness :
    (∃ vm1 : VirtualMachine,
      (Reconcile stoppedEnv scenarioReconciler emptyWorld "team-a" "demo").2.writes
        = emptyWorld.writes ++ [vm1] ∧
      mapLookup vm1.Annotations LastStatusAnnotation = some "Stopped" ∧
      mapIndex vm1.Annotations ProcessedAnnotation = "true") ∧
    Reconcile unrecordedEnv scenarioReconciler emptyWorld "team-a" "demo"
      = ((Result.done, none), emptyWorld) :=
  ⟨((reconcile_records_phase_change stoppedEnv scenarioReconciler emptyWorld
      "team-a" "demo" stoppedVM rfl rfl rfl (by decide)).1 (by decide) (by decide)).imp
      (fun _ h => ⟨h.1, h.2.2.1, h.2.2.2.1⟩),
   (reconcile_records_phase_change unrecordedEnv scenarioReconciler emptyWorld
      "team-a" "demo" unrecordedVM rfl rfl rfl (by decide)).2 (by decide)⟩

/-! ## Connection builder: parameter and attribute tables -/

theorem lookup_fillEmptyParams_eq (keys : List String) (k : String) :
    ∀ p : StrMap, (fillEmptyParams p keys).lookup k
      = match p.lookup k with
        | some v => some v
        | none => if k ∈ keys then some "" else none := by
  induction keys with
  | nil => intro p; cases h : p.lookup k <;> simp [fillEmptyParams, h]
  | cons hd tl ih =>
    intro p
    unfold fillEmptyParams
    split
    · rename_i hs
      rw [ih]
      cases hk : p.lookup k with
      | some v => rfl
      | none =>
        have hne : k ≠ hd := by
          intro h; subst h; rw [hk] at hs; cases hs
        simp [List.mem_cons, hne]
    · rename_i hs
      rw [ih, lookup_mapSet]
      by_cases hkh : k = hd
      · subst hkh
        have hk : p.lookup k = none := by
          cases h : p.lookup k with
          | none => rfl
          | some v => rw [h] at hs; exact absurd rfl hs
        simp [hk]
      · simp only [if_neg hkh]
        cases hk : p.lookup k with
        | some v => rfl
        | none => simp [List.mem_cons, hkh]

theorem lookup_hostname_protocolParameters (vm : VirtualMachine) (protocol : String)
    (p q : StrMap) (h : protocolParameters vm protocol p = some q) :
    q.lookup "hostname" = p.lookup "hostname" := by
  unfold protocolParameters at h
  split at h
  · cases h
    simp [lookup_setIfAnnotated_ne, lookup_mapSet]
  · split at h
    · cases h
      simp [lookup_setIfAnnotated_ne, lookup_mapSet]
    · cases h

theorem lookup_empty_protocolParameters (vm : VirtualMachine) (protocol host port : String)
    (q : StrMap) (k : String) (hk : k ∈ emptyParams)
    (h : protocolParameters vm protocol (mapSet (mapSet [] "hostname" host) "port" port)
      = some q) :
    q.lookup k = none := by
  unfold protocolParameters at h
  simp only [emptyParams, List.mem_cons, List.mem_singleton, List.not_mem_nil, or_false] at hk
  split at h
  · cases h
    rcases hk with rfl | rfl | rfl | rfl | rfl | rfl | rfl | rfl <;>
      simp [lookup_setIfAnnotated_ne, lookup_mapSet]
  · split at h
    · cases h
      rcases hk with rfl | rfl | rfl | rfl | rfl | rfl | rfl | rfl <;>
        simp [lookup_setIfAnnotated_ne, lookup_mapSet]
    · cases h

/-- Claim C16. For every VM for which `buildGuacamoleConnection` succeeds: the parameter
map holds `hostname` (the resolved hostname) and `port`, and each of the eight
recording and destination keys mapped to the empty string; the attribute map is
exactly the seven keys `max-connections`, `max-connections-per-user`, `weight`,
`failover-only`, `guacd-port`, `guacd-encryption`, `guacd-hostname`, each mapped to the
empty string. -/
theorem parameter_and_attribute_tables (env : Env) (vm : VirtualMachine)
    (c : GuacamoleConnection) (hb : buildGuacamoleConnection env vm = .ok c) :
    (∃ hostname, getVMHostname env vm = .ok hostname ∧
      c.Parameters.lookup "hostname" = some hostname) ∧
    (c.Parameters.lookup "port").isSome = true ∧
    (∀ k ∈ ["recording-path", "recording-name", "recording-exclude-output",
        "recording-exclude-mouse", "recording-include-keys", "create-recording-path",
        "dest-host", "dest-port"], c.Parameters.lookup k = some "") ∧
    c.Attributes =
      [("max-connections", ""), ("max-connections-per-user", ""), ("weight", ""),
       ("failover-only", ""), ("guacd-port", ""), ("guacd-encryption", ""),
       ("guacd-hostname", "")] := by
  obtain ⟨hostname, parameters, hh, hp, rfl⟩ := build_ok_inv env vm c hb
  refine ⟨⟨hostname, hh, ?_⟩, ?_, ?_, rfl⟩
  · dsimp only
    rw [lookup_fillEmptyParams _ _ (by decide),
      lookup_hostname_protocolParameters vm _ _ _ hp, lookup_mapSet,
      if_neg (by decide), lookup_mapSet, if_pos rfl]
  · dsimp only
    rw [lookup_fillEmptyParams _ _ (by decide),
      lookup_port_protocolParameters vm _ _ _ hp, lookup_mapSet, if_pos rfl]
    rfl
  · intro k hk
    have hk2 : k ∈ emptyParams := hk
    dsimp only
    rw [lookup_fillEmptyParams_eq, lookup_empty_protocolParameters vm _ _ _ _ k hk2 hp]
    simp only [hk2, if_true]

theorem parameter_and_attribute_tables_witness :
    vncConnection.Parameters.lookup "hostname" = some "10.0.0.5" ∧
    vncConnection.Parameters.lookup "dest-port" = some "" ∧
    rdpConnection.Parameters.lookup "recording-path" = some "" ∧
    vncConnection.Attributes.length = 7 :=
  ⟨(parameter_and_attribute_tables vncEnv vncVM vncConnection rfl).1.elim
      (fun _ h => h.2.trans (congrArg some (Except.ok.inj (h.1.symm.trans rfl)))),
   (parameter_and_attribute_tables vncEnv vncVM vncConnection rfl).2.2.1 "dest-port"
      (by decide),
   (parameter_and_attribute_tables rdpEnv rdpVM rdpConnection rfl).2.2.1 "recording-path"
      (by decide),
   congrArg List.length (parameter_and_attribute_tables vncEnv vncVM vncConnection rfl).2.2.2⟩

/-! ## Create -/

/-- Claim C17. After a successful authentication, a built and marshalled spec and a
completed exchange, `createGuacamoleConnection` returns an error, and with it the empty
identifier, for every status outside 200–299; for a status inside 200–299 whose body
decodes it returns the identifier field of the decoded body. -/
theorem create_status_handling (env : Env) (r : VirtualMachineReconciler) (w w1 : World)
    (vm : VirtualMachine) (authResp : GuacamoleAuthResponse)
    (connection : GuacamoleConnection) (body respBody : String) (status : Int)
    (hauth : authenticateWithGuacamole env r w = (.ok authResp, w1))
    (hbuild : buildGuacamoleConnection env vm = .ok connection)
    (hmarshal : env.marshal connection = .ok body)
    (hreq : env.newRequest "POST"
      (trimSuffix r.GuacamoleBaseURL "/" ++ "/api/session/data/" ++
        authResp.DataSource ++ "/connections?token=" ++ authResp.AuthToken) = none)
    (hresp : env.http w1.httpLog
      { method := "POST"
        url := trimSuffix r.GuacamoleBaseURL "/" ++ "/api/session/data/" ++
          authResp.DataSource ++ "/connections?token=" ++ authResp.AuthToken
        contentType := "application/json", body := body } = .response status respBody) :
    ((status < 200 ∨ 300 ≤ status) →
      (createGuacamoleConnection env r w vm).1
        = .error ("connection creation failed with status " ++ toString status) ∧
      returnedIdentifier (createGuacamoleConnection env r w vm).1 = "") ∧
    (200 ≤ status → status < 300 →
      ∀ connResp, env.decodeConn respBody = .ok connResp →
        (createGuacamoleConnection env r w vm).1 = .ok connResp.Identifier ∧
        returnedIdentifier (createGuacamoleConnection env r w vm).1
          = connResp.Identifier) := by
  constructor
  · intro hs
    have hc : status < 200 ∨ status ≥ 300 := hs
    have hres : (createGuacamoleConnection env r w vm).1
        = .error ("connection creation failed with status " ++ toString status) := by
      unfold createGuacamoleConnection doHTTP
      simp only [hauth, hbuild, hmarshal, hreq, hresp, hc, if_true]
    rw [hres]
    exact ⟨rfl, rfl⟩
  · intro h1 h2 connResp hdec
    have hc : ¬(status < 200 ∨ status ≥ 300) := by omega
    have hres : (createGuacamoleConnection env r w vm).1 = .ok connResp.Identifier := by
      unfold createGuacamoleConnection doHTTP
      simp only [hauth, hbuild, hmarshal, hreq, hresp, hc, if_false, hdec]
    rw [hres]
    exact ⟨rfl, rfl⟩

theorem create_status_handling_witness :
    (createGuacamoleConnection createRejectedEnv scenarioReconciler emptyWorld
      scenarioAVM).1 = .error "connection creation failed with status 409" ∧
    (createGuacamoleConnection scenarioAEnv scenarioReconciler emptyWorld
      scenarioAVM).1 = .ok "7" :=
  ⟨((create_status_handling createRejectedEnv scenarioReconciler emptyWorld
      (authenticateWithGuacamole createRejectedEnv scenarioReconciler emptyWorld).2
      scenarioAVM scenarioAuth scenarioAConnection "team-a-demo" "" 409
      rfl rfl rfl rfl rfl).1 (Or.inr (by decide))).1,
   ((create_status_handling scenarioAEnv scenarioReconciler emptyWorld
      (authenticateWithGuacamole scenarioAEnv scenarioReconciler emptyWorld).2
      scenarioAVM scenarioAuth scenarioAConnection "team-a-demo" "7" 200
      rfl rfl rfl rfl rfl).2 (by decide) (by decide)
      { Identifier := "7", ParentIdentifier := "ROOT", Name := "", Protocol := ""
        Parameters := none, Attributes := none } rfl).1⟩

/-! ## Create without an existence check -/

theorem authenticate_log (env : Env) (r : VirtualMachineReconciler) (w : World) :
    ∃ extra, (authenticateWithGuacamole env r w).2.httpLog = w.httpLog ++ extra ∧
      ∀ q ∈ extra, q.method = "POST" := by
  unfold authenticateWithGuacamole doHTTP
  split
  · exact ⟨[], by simp, by simp⟩
  · dsimp only
    split
    · exact ⟨[], by simp, by simp⟩
    · split
      · rename_i h; rw [Prod.mk.injEq] at h; obtain ⟨-, rfl⟩ := h
        exact ⟨[_], rfl, by simp⟩
      · rename_i h; rw [Prod.mk.injEq] at h; obtain ⟨-, rfl⟩ := h
        split
        · exact ⟨[_], rfl, by simp⟩
        · split <;> exact ⟨[_], rfl, by simp⟩

theorem create_log (env : Env) (r : VirtualMachineReconciler) (w : World)
    (vm : VirtualMachine) :
    ∃ extra, (createGuacamoleConnection env r w vm).2.httpLog = w.httpLog ++ extra ∧
      ∀ q ∈ extra, q.method = "POST" := by
  obtain ⟨ex, ha, hpost⟩ := authenticate_log env r w
  unfold createGuacamoleConnection doHTTP
  split
  · rename_i h; rw [h] at ha; exact ⟨ex, ha, hpost⟩
  · rename_i h; rw [h] at ha; dsimp only at ha ⊢
    split
    · exact ⟨ex, ha, hpost⟩
    · split
      · exact ⟨ex, ha, hpost⟩
      · split
        · exact ⟨ex, ha, hpost⟩
        · have hstep : ∀ q : HttpRequest, q.method = "POST" →
              ∃ extra, w.httpLog ++ ex ++ [q] = w.httpLog ++ extra ∧
                ∀ q2 ∈ extra, q2.method = "POST" := by
            intro q hq
            refine ⟨ex ++ [q], by simp, ?_⟩
            intro q2 hq2
            rcases List.mem_append.1 hq2 with h2 | h2
            · exact hpost q2 h2
            · rw [List.mem_singleton] at h2; rw [h2]; exact hq
          split
          · rename_i h; rw [Prod.mk.injEq] at h; obtain ⟨-, rfl⟩ := h
            dsimp only; rw [ha]; exact hstep _ rfl
          · rename_i h; rw [Prod.mk.injEq] at h; obtain ⟨-, rfl⟩ := h
            split
            · dsimp only; rw [ha]; exact hstep _ rfl
            · split <;> (dsimp only; rw [ha]; exact hstep _ rfl)

/-- Claim C18. A VM with no deletion marker, the finalizer attached, not yet processed
and Running, for which the create succeeds and the write-back that follows fails:
`Reconcile` returns the error of that write; everything it sent to the gateway was a
POST (authentication and create), so nothing was listed or looked up; and a later
`Reconcile` of the same, still unprocessed, VM runs `createGuacamoleConnection` for the
same VM, hence the same connection name, once more. -/
theorem reconcile_recreates_after_failed_write (env : Env) (r : VirtualMachineReconciler)
    (w w1 : World) (ns name id err : String) (vm : VirtualMachine)
    (hget : env.getVM ns name = .found vm)
    (hdel : vm.DeletionTimestamp = none)
    (hfin : ContainsFinalizer vm VMWatcherFinalizer = true)
    (hnew : mapIndex vm.Annotations ProcessedAnnotation ≠ "true")
    (hrun : vm.PrintableStatus = VirtualMachineStatusRunning)
    (hok : createGuacamoleConnection env r w vm = (.ok id, w1))
    (hupd : env.update w1.writes
      { vm with Annotations := some (mapSet (mapSet (mapOrMake vm.Annotations)
          ProcessedAnnotation "true") LastStatusAnnotation vm.PrintableStatus) }
      = some err) :
    (Reconcile env r w ns name).1 = (Result.done, some err) ∧
    (Reconcile env r w ns name).2.httpLog = w1.httpLog ∧
    (∃ extra, (Reconcile env r w ns name).2.httpLog = w.httpLog ++ extra ∧
      ∀ q ∈ extra, q.method = "POST") ∧
    (∀ w2 : World, (Reconcile env r w2 ns name).2.httpLog
      = (createGuacamoleConnection env r w2 vm).2.httpLog) ∧
    (∀ c, buildGuacamoleConnection env vm = .ok c → c.Name = vm.Namespace ++ "-" ++ vm.Name) := by
  have hlog := create_log env r w vm
  rw [hok] at hlog
  have hrec : Reconcile env r w ns name
      = ((Result.done, some err),
         { w1 with writes := w1.writes ++ [{ vm with Annotations := some (mapSet (mapSet
            (mapOrMake vm.Annotations) ProcessedAnnotation "true")
            LastStatusAnnotation vm.PrintableStatus) }] }) := by
    unfold Reconcile doUpdate
    simp only [hget, hdel, hfin, hnew, hok]
    simp only [hrun, hdel] at hupd
    simp [hrun, hnew, hupd]
  refine ⟨?_, ?_, ?_, ?_, ?_⟩
  · rw [hrec]
  · rw [hrec]
  · rw [hrec]; exact hlog
  · intro w2
    unfold Reconcile doUpdate
    simp only [hget, hdel, hfin, hnew, hrun]
    simp only [VirtualMachineStatusRunning, Option.isSome_none, Bool.false_eq_true,
      if_false, Bool.not_true, bne_self_eq_false, ne_eq, not_false_eq_true, bne_iff_ne,
      if_true, hnew]
    split
    · rename_i h; rw [h]
    · rename_i h; rw [h]
      split <;> rename_i h2 <;> rw [Prod.mk.injEq] at h2 <;> rw [← h2.2]
  · intro c hc
    obtain ⟨_, _, _, _, rfl⟩ := build_ok_inv env vm c hc
    rfl

theorem reconcile_recreates_after_failed_write_witness :
    (Reconcile firstWriteFailsEnv scenarioReconciler emptyWorld "team-a" "demo").1
      = (Result.done, some "conflict") ∧
    (Reconcile firstWriteFailsEnv scenarioReconciler
      (Reconcile firstWriteFailsEnv scenarioReconciler emptyWorld "team-a" "demo").2
      "team-a" "demo").1 = (Result.done, none) ∧
    ((Reconcile firstWriteFailsEnv scenarioReconciler
      (Reconcile firstWriteFailsEnv scenarioReconciler emptyWorld "team-a" "demo").2
      "team-a" "demo").2.httpLog.filter
        (fun q => q.contentType == "application/json")).map (fun q => q.body)
      = ["team-a-demo", "team-a-demo"] :=
  ⟨(reconcile_recreates_after_failed_write firstWriteFailsEnv scenarioReconciler emptyWorld
      (createGuacamoleConnection firstWriteFailsEnv scenarioReconciler emptyWorld
        scenarioAVM).2
      "team-a" "demo" "7" "conflict" scenarioAVM rfl rfl rfl (by decide) rfl rfl rfl).1,
   rfl, rfl⟩

/-! ## Connection builder: protocol switch and credentials -/

theorem protocolParameters_isSome (vm : VirtualMachine) (p : StrMap) :
    (protocolParameters vm (resolveProtocol vm) p).isSome = true := by
  rcases resolveProtocol_cases vm with h | h <;> rw [h] <;> simp [protocolParameters]

/-- Claim C19. The protocol that reaches the parameter switch is `"rdp"` or `"vnc"`,
whatever the protocol annotation, so the switch never takes its default branch: the
builder returns an error exactly when `getVMHostname` does, and a spec otherwise. -/
theorem unsupported_protocol_unreachable (env : Env) (vm : VirtualMachine) :
    (resolveProtocol vm = "rdp" ∨ resolveProtocol vm = "vnc") ∧
    (∀ p, protocolParameters vm (resolveProtocol vm) p ≠ none) ∧
    (∀ err, getVMHostname env vm = .error err →
      buildGuacamoleConnection env vm = .error ("failed to get VM hostname: " ++ err)) ∧
    (∀ hostname, getVMHostname env vm = .ok hostname →
      ∃ c, buildGuacamoleConnection env vm = .ok c) ∧
    ((∃ err, buildGuacamoleConnection env vm = .error err) ↔
      (∃ err, getVMHostname env vm = .error err)) := by
  have hsome : ∀ p, protocolParameters vm (resolveProtocol vm) p ≠ none := by
    intro p h
    have := protocolParameters_isSome vm p
    rw [h] at this
    cases this
  have herr : ∀ err, getVMHostname env vm = .error err →
      buildGuacamoleConnection env vm = .error ("failed to get VM hostname: " ++ err) := by
    intro err h
    unfold buildGuacamoleConnection
    simp only [h]
  have hok : ∀ hostname, getVMHostname env vm = .ok hostname →
      ∃ c, buildGuacamoleConnection env vm = .ok c := by
    intro hostname h
    unfold buildGuacamoleConnection
    simp only [h]
    cases hp : protocolParameters vm (resolveProtocol vm)
        (mapSet (mapSet [] "hostname" hostname) "port"
          (resolvePort vm (resolveProtocol vm))) with
    | none => exact absurd hp (hsome _)
    | some q => exact ⟨_, rfl⟩
  refine ⟨resolveProtocol_cases vm, hsome, herr, hok, ?_⟩
  constructor
  · rintro ⟨e, he⟩
    cases hh : getVMHostname env vm with
    | error err => exact ⟨err, rfl⟩
    | ok hostname =>
      obtain ⟨c, hc⟩ := hok hostname hh
      rw [hc] at he
      cases he
  · rintro ⟨e, he⟩
    exact ⟨_, herr e he⟩

theorem unsupported_protocol_unreachable_witness :
    mapLookup rdpVM.Annotations ProtocolAnnotation = some "smtp" ∧
    resolveProtocol rdpVM = "rdp" ∧
    buildGuacamoleConnection instanceLookupFailsEnv scenarioAVM
      = .error "failed to get VM hostname: failed to get VMI: timeout" ∧
    (∃ c, buildGuacamoleConnection scenarioAEnv scenarioAVM = .ok c) :=
  ⟨rfl, rfl,
   (unsupported_protocol_unreachable instanceLookupFailsEnv scenarioAVM).2.2.1
      "failed to get VMI: timeout" rfl,
   (unsupported_protocol_unreachable scenarioAEnv scenarioAVM).2.2.2.1 "10.0.0.5" rfl⟩

theorem lookup_setIfAnnotated_self (vm : VirtualMachine) (key name : String) (p : StrMap) :
    (setIfAnnotated vm key name p).lookup name
      = match mapLookup vm.Annotations key with
        | some v => some v
        | none => p.lookup name := by
  unfold setIfAnnotated
  cases mapLookup vm.Annotations key with
  | none => rfl
  | some v => simp [lookup_mapSet]

/-- Claim C20. Credentials go from the annotations into the parameter map as they are.
Under rdp the parameters `username`, `password` and `domain` are the values of the
respective annotations when present and have no key when absent; under vnc the same
holds for `password`, while `username` and `domain` never have a key. -/
theorem credentials_copied_verbatim (env : Env) (vm : VirtualMachine)
    (c : GuacamoleConnection) (hb : buildGuacamoleConnection env vm = .ok c) :
    (c.Protocol = "rdp" →
      c.Parameters.lookup "username" = mapLookup vm.Annotations UsernameAnnotation ∧
      c.Parameters.lookup "password" = mapLookup vm.Annotations PasswordAnnotation ∧
      c.Parameters.lookup "domain" = mapLookup vm.Annotations DomainAnnotation) ∧
    (c.Protocol = "vnc" →
      c.Parameters.lookup "password" = mapLookup vm.Annotations PasswordAnnotation ∧
      c.Parameters.lookup "username" = none ∧
      c.Parameters.lookup "domain" = none) := by
  obtain ⟨hostname, parameters, _, hp, rfl⟩ := build_ok_inv env vm c hb
  dsimp only
  constructor
  · intro hproto
    rw [hproto] at hp
    simp only [protocolParameters, String.reduceEq, if_false, if_true, Option.some.injEq] at hp
    subst hp
    refine ⟨?_, ?_, ?_⟩
    · rw [lookup_fillEmptyParams _ _ (by decide)]
      simp only [lookup_setIfAnnotated_ne _ _ _ _ _ (show "username" ≠ "domain" by decide),
        lookup_setIfAnnotated_ne _ _ _ _ _ (show "username" ≠ "password" by decide),
        lookup_setIfAnnotated_self]
      cases mapLookup vm.Annotations UsernameAnnotation <;> simp [lookup_mapSet]
    · rw [lookup_fillEmptyParams _ _ (by decide)]
      simp only [lookup_setIfAnnotated_ne _ _ _ _ _ (show "password" ≠ "domain" by decide),
        lookup_setIfAnnotated_ne _ _ _ _ _ (show "password" ≠ "username" by decide),
        lookup_setIfAnnotated_self]
      cases mapLookup vm.Annotations PasswordAnnotation <;> simp [lookup_mapSet]
    · rw [lookup_fillEmptyParams _ _ (by decide)]
      simp only [lookup_setIfAnnotated_self]
      cases mapLookup vm.Annotations DomainAnnotation <;>
        simp [lookup_mapSet, lookup_setIfAnnotated_ne]
  · intro hproto
    rw [hproto] at hp
    simp only [protocolParameters, if_true, Option.some.injEq] at hp
    subst hp
    refine ⟨?_, ?_, ?_⟩
    · rw [lookup_fillEmptyParams _ _ (by decide)]
      simp only [lookup_setIfAnnotated_self]
      cases mapLookup vm.Annotations PasswordAnnotation <;> simp [lookup_mapSet]
    · rw [lookup_fillEmptyParams _ _ (by decide)]
      simp [lookup_mapSet, lookup_setIfAnnotated_ne]
    · rw [lookup_fillEmptyParams _ _ (by decide)]
      simp [lookup_mapSet, lookup_setIfAnnotated_ne]

theorem credentials_copied_verbatim_witness :
    rdpCredentialConnection.Parameters.lookup "username" = some "Alice" ∧
    rdpCredentialConnection.Parameters.lookup "password" = some "s3cret " ∧
    rdpCredentialConnection.Parameters.lookup "domain" = some "CORP" ∧
    vncCredentialConnection.Parameters.lookup "password" = some "s3cret " ∧
    mapLookup vncCredentialVM.Annotations UsernameAnnotation = some "Alice" ∧
    vncCredentialConnection.Parameters.lookup "username" = none ∧
    rdpConnection.Parameters.lookup "password" = none :=
  ⟨((credentials_copied_verbatim rdpCredentialEnv rdpCredentialVM rdpCredentialConnection
      rfl).1 rfl).1,
   ((credentials_copied_verbatim rdpCredentialEnv rdpCredentialVM rdpCredentialConnection
      rfl).1 rfl).2.1,
   ((credentials_copied_verbatim rdpCredentialEnv rdpCredentialVM rdpCredentialConnection
      rfl).1 rfl).2.2,
   ((credentials_copied_verbatim vncCredentialEnv vncCredentialVM vncCredentialConnection
      rfl).2 rfl).1,
   rfl,
   ((credentials_copied_verbatim vncCredentialEnv vncCredentialVM vncCredentialConnection
      rfl).2 rfl).2.1,
   ((credentials_copied_verbatim rdpEnv rdpVM rdpConnection rfl).1 rfl).2.1⟩

/-! ## Deletion path -/

theorem handleDeletion_log (env : Env) (r : VirtualMachineReconciler) (w : World)
    (vm : VirtualMachine) :
    (handleDeletion env r w vm).2.httpLog
      = (deleteGuacamoleConnectionByName env r w
          (vm.Namespace ++ "-" ++ vm.Name)).2.httpLog := by
  unfold handleDeletion doUpdate
  dsimp only
  split
  · split <;> rename_i h2 <;> rw [Prod.mk.injEq] at h2 <;> rw [← h2.2]
  · rfl

theorem cleanup_log_append (w w1 w2 : World)
    (h1 : ∃ e1, w1.httpLog = w.httpLog ++ e1 ∧ ∀ q ∈ e1, IsCleanupRequest q)
    (h2 : ∃ e2, w2.httpLog = w1.httpLog ++ e2 ∧ ∀ q ∈ e2, IsCleanupRequest q) :
    ∃ e, w2.httpLog = w.httpLog ++ e ∧ ∀ q ∈ e, IsCleanupRequest q := by
  obtain ⟨e1, ha, hp1⟩ := h1
  obtain ⟨e2, hb, hp2⟩ := h2
  refine ⟨e1 ++ e2, by rw [hb, ha, List.append_assoc], ?_⟩
  intro q hq
  rcases List.mem_append.1 hq with h | h
  · exact hp1 q h
  · exact hp2 q h

theorem cleanup_log_refl (w : World) :
    ∃ e, w.httpLog = w.httpLog ++ e ∧ ∀ q ∈ e, IsCleanupRequest q :=
  ⟨[], by simp, by simp⟩

theorem cleanup_log_step (w : World) (q : HttpRequest) (hq : IsCleanupRequest q) :
    ∃ e, ({ w with httpLog := w.httpLog ++ [q] } : World).httpLog = w.httpLog ++ e ∧
      ∀ q2 ∈ e, IsCleanupRequest q2 :=
  ⟨[q], rfl, by intro q2 h2; rw [List.mem_singleton] at h2; rw [h2]; exact hq⟩

theorem authenticate_cleanup_log (env : Env) (r : VirtualMachineReconciler) (w : World) :
    ∃ e, (authenticateWithGuacamole env r w).2.httpLog = w.httpLog ++ e ∧
      ∀ q ∈ e, IsCleanupRequest q := by
  have hq : ∀ u b, IsCleanupRequest
      { method := "POST", url := u, contentType := "application/x-www-form-urlencoded"
        body := b } := fun _ _ => Or.inr (Or.inr ⟨rfl, rfl⟩)
  unfold authenticateWithGuacamole doHTTP
  split
  · exact cleanup_log_refl w
  · dsimp only
    split
    · exact cleanup_log_refl w
    · split
      · rename_i h; rw [Prod.mk.injEq] at h; obtain ⟨-, rfl⟩ := h
        exact cleanup_log_step w _ (hq _ _)
      · rename_i h; rw [Prod.mk.injEq] at h; obtain ⟨-, rfl⟩ := h
        split
        · exact cleanup_log_step w _ (hq _ _)
        · split <;> exact cleanup_log_step w _ (hq _ _)

theorem delete_cleanup_log (env : Env) (r : VirtualMachineReconciler) (w : World)
    (connectionID : String) :
    ∃ e, (deleteGuacamoleConnection env r w connectionID).2.httpLog = w.httpLog ++ e ∧
      ∀ q ∈ e, IsCleanupRequest q := by
  have ha := authenticate_cleanup_log env r w
  have hq : ∀ u, IsCleanupRequest
      { method := "DELETE", url := u, contentType := "", body := "" } :=
    fun _ => Or.inr (Or.inl rfl)
  unfold deleteGuacamoleConnection doHTTP
  split
  · exact cleanup_log_refl w
  · split
    · rename_i h; rw [h] at ha; exact ha
    · rename_i h; rw [h] at ha; dsimp only at ha ⊢
      split
      · exact ha
      · split
        · rename_i h; rw [Prod.mk.injEq] at h; obtain ⟨-, rfl⟩ := h
          exact cleanup_log_append w _ _ ha (cleanup_log_step _ _ (hq _))
        · rename_i h; rw [Prod.mk.injEq] at h; obtain ⟨-, rfl⟩ := h
          split
          · exact cleanup_log_append w _ _ ha (cleanup_log_step _ _ (hq _))
          · split <;> exact cleanup_log_append w _ _ ha (cleanup_log_step _ _ (hq _))

theorem deleteMatching_cleanup_log (env : Env) (r : VirtualMachineReconciler)
    (name : String) (l : List (String × GuacamoleConnectionResponse)) :
    ∀ (w : World) (b : Bool),
      ∃ e, (deleteMatching env r name l w b).2.httpLog = w.httpLog ++ e ∧
        ∀ q ∈ e, IsCleanupRequest q := by
  induction l with
  | nil => intro w b; exact cleanup_log_refl w
  | cons hd tl ih =>
    intro w b
    obtain ⟨identifier, connection⟩ := hd
    have hd := delete_cleanup_log env r w identifier
    unfold deleteMatching
    split
    · split
      · rename_i h; rw [h] at hd; exact cleanup_log_append w _ _ hd (ih _ _)
      · rename_i h; rw [h] at hd; exact cleanup_log_append w _ _ hd (ih _ _)
    · exact ih w b

theorem deleteByName_cleanup_log (env : Env) (r : VirtualMachineReconciler) (w : World)
    (name : String) :
    ∃ e, (deleteGuacamoleConnectionByName env r w name).2.httpLog = w.httpLog ++ e ∧
      ∀ q ∈ e, IsCleanupRequest q := by
  have ha := authenticate_cleanup_log env r w
  have hq : ∀ u, IsCleanupRequest
      { method := "GET", url := u, contentType := "", body := "" } :=
    fun _ => Or.inl rfl
  unfold deleteGuacamoleConnectionByName doHTTP
  split
  · rename_i h; rw [h] at ha; exact ha
  · rename_i h; rw [h] at ha; dsimp only at ha ⊢
    split
    · exact ha
    · split
      · rename_i h; rw [Prod.mk.injEq] at h; obtain ⟨-, rfl⟩ := h
        exact cleanup_log_append w _ _ ha (cleanup_log_step _ _ (hq _))
      · rename_i h; rw [Prod.mk.injEq] at h; obtain ⟨-, rfl⟩ := h
        split
        · exact cleanup_log_append w _ _ ha (cleanup_log_step _ _ (hq _))
        · split
          · exact cleanup_log_append w _ _ ha (cleanup_log_step _ _ (hq _))
          · exact cleanup_log_append w _ _
              (cleanup_log_append w _ _ ha (cleanup_log_step _ _ (hq _)))
              (deleteMatching_cleanup_log env r name _ _ _)

/-- Claim C21. For every VM that carries the deletion marker, whatever its finalizer,
annotations and phase, `Reconcile` is `handleDeletion`: the result is never a requeue;
with the finalizer present the only write-back is the VM with the finalizer removed,
and without it there is no write-back at all; a written VM has the annotations of the
VM, `processed` and `last-status` included, and no finalizer of this controller; and
every request sent to the gateway is a listing, a delete or an authentication, never a
create. -/
theorem deletion_takes_precedence (env : Env) (r : VirtualMachineReconciler) (w : World)
    (ns name : String) (vm : VirtualMachine)
    (hget : env.getVM ns name = .found vm)
    (hdel : vm.DeletionTimestamp.isSome = true) :
    Reconcile env r w ns name = handleDeletion env r w vm ∧
    (Reconcile env r w ns name).1.1 = { Requeue := false, RequeueAfter := 0 } ∧
    (ContainsFinalizer vm VMWatcherFinalizer = true →
      (Reconcile env r w ns name).2.writes
        = w.writes ++ [RemoveFinalizer vm VMWatcherFinalizer]) ∧
    (ContainsFinalizer vm VMWatcherFinalizer = false →
      (Reconcile env r w ns name).2.writes = w.writes) ∧
    (∀ vm1 ∈ (Reconcile env r w ns name).2.writes, vm1 ∈ w.writes ∨
      (vm1.Annotations = vm.Annotations ∧
        ContainsFinalizer vm1 VMWatcherFinalizer = false)) ∧
    (∃ extra, (Reconcile env r w ns name).2.httpLog = w.httpLog ++ extra ∧
      ∀ q ∈ extra, IsCleanupRequest q ∧
        ¬(q.method = "POST" ∧ q.contentType = "application/json")) := by
  have hrec : Reconcile env r w ns name = handleDeletion env r w vm := by
    unfold Reconcile
    simp only [hget, hdel, if_true]
  have hw := deleteByName_writes env r w (vm.Namespace ++ "-" ++ vm.Name)
  have hfinw : ContainsFinalizer vm VMWatcherFinalizer = true →
      (handleDeletion env r w vm).2.writes
        = w.writes ++ [RemoveFinalizer vm VMWatcherFinalizer] := by
    intro hfin
    unfold handleDeletion doUpdate
    simp only [hfin, if_true]
    split <;> rename_i h2 <;> rw [Prod.mk.injEq] at h2 <;> rw [← h2.2, hw]
  have hnofin : ContainsFinalizer vm VMWatcherFinalizer = false →
      (handleDeletion env r w vm).2.writes = w.writes := by
    intro hfin
    unfold handleDeletion
    simp only [hfin, Bool.false_eq_true, if_false]
    exact hw
  rw [hrec]
  refine ⟨rfl, ?_, hfinw, hnofin, ?_, ?_⟩
  · unfold handleDeletion
    dsimp only
    split
    · split <;> rfl
    · rfl
  · intro vm1 hvm1
    cases hfin : ContainsFinalizer vm VMWatcherFinalizer with
    | false => rw [hnofin hfin] at hvm1; exact Or.inl hvm1
    | true =>
      rw [hfinw hfin] at hvm1
      rcases List.mem_append.1 hvm1 with h | h
      · exact Or.inl h
      · rw [List.mem_singleton] at h
        subst h
        exact Or.inr ⟨rfl, containsFinalizer_removeFinalizer vm _⟩
  · rw [handleDeletion_log]
    obtain ⟨e, he, hp⟩ := deleteByName_cleanup_log env r w (vm.Namespace ++ "-" ++ vm.Name)
    refine ⟨e, he, ?_⟩
    intro q hq
    refine ⟨hp q hq, ?_⟩
    rintro ⟨hm, hc⟩
    rcases hp q hq with h | h | ⟨_, h⟩
    · rw [hm] at h; exact absurd h (by decide)
    · rw [hm] at h; exact absurd h (by decide)
    · rw [hc] at h; exact absurd h (by decide)

theorem deletion_takes_precedence_witness :
    (ContainsFinalizer releasedVM VMWatcherFinalizer = false ∧
      mapIndex releasedVM.Annotations ProcessedAnnotation ≠ "true" ∧
      releasedVM.PrintableStatus = "Running") ∧
    (Reconcile releasedEnv scenarioReconciler emptyWorld "team-a" "demo").1.1
      = Result.done ∧
    (Reconcile releasedEnv scenarioReconciler emptyWorld "team-a" "demo").2.writes = [] ∧
    (Reconcile scenarioBEnv scenarioReconciler emptyWorld "team-a" "demo").2.writes
      = [{ scenarioBVM with Finalizers := [] }] :=
  ⟨⟨rfl, by decide, rfl⟩,
   (deletion_takes_precedence releasedEnv scenarioReconciler emptyWorld "team-a" "demo"
      releasedVM rfl rfl).2.1,
   (deletion_takes_precedence releasedEnv scenarioReconciler emptyWorld "team-a" "demo"
      releasedVM rfl rfl).2.2.2.1 rfl,
   (deletion_takes_precedence scenarioBEnv scenarioReconciler emptyWorld "team-a" "demo"
      scenarioBVM rfl rfl).2.2.1 rfl⟩

/-- Claim C22. The connection name is not injective in the VM identity: VM `b-demo` of
namespace `team-a` and VM `demo` of namespace `team-a-b` are distinct, the builder
names both specs `team-a-b-demo`, and `handleDeletion` hands the same name to the
delete-by-name for both, whatever the collaborators. So when the gateway lists
connection `7`, created for the first VM, the deletion of the second VM selects `7`
and sends its delete. -/
theorem connection_name_not_injective :
    (firstTwinVM.Namespace, firstTwinVM.Name) ≠ (secondTwinVM.Namespace, secondTwinVM.Name) ∧
    buildGuacamoleConnection twinEnv firstTwinVM = .ok firstTwinConnection ∧
    buildGuacamoleConnection twinEnv secondTwinVM = .ok secondTwinConnection ∧
    firstTwinConnection.Name = "team-a-b-demo" ∧
    firstTwinConnection.Name = secondTwinConnection.Name ∧
    (∀ (env : Env) (r : VirtualMachineReconciler) (w : World),
      (handleDeletion env r w firstTwinVM).2.httpLog
        = (deleteGuacamoleConnectionByName env r w "team-a-b-demo").2.httpLog ∧
      (handleDeletion env r w secondTwinVM).2.httpLog
        = (deleteGuacamoleConnectionByName env r w "team-a-b-demo").2.httpLog) ∧
    twinEnv.decodeConns "" = .ok [("7", namedConnection "7" firstTwinConnection.Name)] ∧
    specMatchingIds (secondTwinVM.Namespace ++ "-" ++ secondTwinVM.Name)
      [("7", namedConnection "7" firstTwinConnection.Name)] = ["7"] ∧
    ((Reconcile twinEnv scenarioReconciler emptyWorld "team-a-b" "demo").2.httpLog.filter
        (fun q => q.method == "DELETE")).map (fun q => q.url)
      = ["https://guacamole.example.com/api/session/data/postgresql/connections/7?token=t"] := by
  refine ⟨by decide, rfl, rfl, rfl, rfl, ?_, rfl, rfl, rfl⟩
  intro env r w
  exact ⟨handleDeletion_log env r w firstTwinVM, handleDeletion_log env r w secondTwinVM⟩

end Guacamole
